import Mathlib

/-!
# TerrainSim core: a shallow embedding and verification of its specification

This file embeds the numerical and scheduling core of the TerrainSim engine
(`src/libs/core`) into Lean 4 and proves or refutes the specified properties.

Modelling conventions:
* C++ `float`/`double` values are modelled as exact real numbers (`ℝ`);
  `std::sqrt` is `Real.sqrt`.  Configuration-level `double`s that are only
  copied (never computed with) are modelled as `ℚ` and cast to `ℝ` where the
  code performs `static_cast<float>`.
* `int` is `ℤ`; `size_t` quantities are `ℕ`.  `static_cast<int>` of a
  floating value truncates toward zero (`Real.trunc` below); `std::floor`
  followed by a cast to an unsigned index is `⌊·⌋.toNat` (the code only does
  this after establishing the value is nonnegative).
* The heightmap's backing `std::vector<float>` is a `List ℝ` together with
  the invariant that its length is `width * height`.
-/

namespace TerrainSim

/-- `static_cast<int>` of a real value: C++ truncation toward zero. -/
noncomputable def rtrunc (x : ℝ) : ℤ := if 0 ≤ x then ⌊x⌋ else ⌈x⌉

/-- Row-major heightmap (`Heightmap.hpp`): `width × height` grid of floats,
backing storage `m_data` of length exactly `width * height`,
index = `y * width + x`. -/
structure Heightmap where
  width : ℕ
  height : ℕ
  data : List ℝ
  hlen : data.length = width * height

namespace Heightmap

/-- `Heightmap::Heightmap(width, height)`: all cells initialized to zero. -/
def mk0 (width height : ℕ) : Heightmap :=
  ⟨width, height, List.replicate (width * height) 0, by simp⟩

/-- `Heightmap::at(x, y)`: reads `m_data[y * m_width + x]` (no bounds check
in the C++ either; an out-of-range flat index is UB there and defaults to `0`
here). -/
def at' (H : Heightmap) (x y : ℕ) : ℝ := H.data.getD (y * H.width + x) 0

/-- `Heightmap::set(x, y, v)`: writes `m_data[y * m_width + x] = v`. -/
def set (H : Heightmap) (x y : ℕ) (v : ℝ) : Heightmap :=
  ⟨H.width, H.height, H.data.set (y * H.width + x) v, by simp [H.hlen]⟩

/-- `Heightmap::fill(value)`. -/
def fill (H : Heightmap) (v : ℝ) : Heightmap :=
  ⟨H.width, H.height, List.replicate H.data.length v, by simp [H.hlen]⟩

/-- Sum of all cells of the backing storage (used to express the total
amount of material removed by an erosion write). -/
def sumData (H : Heightmap) : ℝ := H.data.sum

/-- `Heightmap::getHeightInterpolated(x, y)` (`Heightmap.cpp:18-44`):
strict domain check (`x < 0 || y < 0 || x >= width-1 || y >= height-1`
returns `0.0`), then bilinear interpolation of the four corners of the
integer cell `(⌊x⌋, ⌊y⌋)`.  For `width = 0` or `height = 0` the C++
computes `m_width - 1` in `size_t` (wrapping) and then reads out of
bounds, which is UB; the embedding uses truncated `ℕ` subtraction, so
theorems about degenerate maps carry `1 ≤ width` hypotheses. -/
noncomputable def getHeightInterpolated (H : Heightmap) (x y : ℝ) : ℝ :=
  if x < 0 ∨ y < 0 ∨ ((H.width - 1 : ℕ) : ℝ) ≤ x ∨ ((H.height - 1 : ℕ) : ℝ) ≤ y then 0
  else
    let x0 : ℕ := ⌊x⌋.toNat
    let y0 : ℕ := ⌊y⌋.toNat
    let fx : ℝ := x - x0
    let fy : ℝ := y - y0
    let h00 := H.at' x0 y0
    let h10 := H.at' (x0 + 1) y0
    let h01 := H.at' x0 (y0 + 1)
    let h11 := H.at' (x0 + 1) (y0 + 1)
    let h0 := h00 * (1 - fx) + h10 * fx
    let h1 := h01 * (1 - fx) + h11 * fx
    h0 * (1 - fy) + h1 * fy

/-- `Heightmap::getGradient(x, y, outX, outY)` (`Heightmap.cpp:46-71`):
same strict bounds as the bilinear sampler (out of bounds yields `(0,0)`
and `false`); central differences at the integer cell `(⌊x⌋, ⌊y⌋)`, the
missing neighbour replaced by the cell itself at the border. -/
noncomputable def getGradient (H : Heightmap) (x y : ℝ) : ℝ × ℝ :=
  if x < 0 ∨ y < 0 ∨ ((H.width - 1 : ℕ) : ℝ) ≤ x ∨ ((H.height - 1 : ℕ) : ℝ) ≤ y then (0, 0)
  else
    let ix : ℕ := ⌊x⌋.toNat
    let iy : ℕ := ⌊y⌋.toNat
    let heightLeft := if 0 < ix then H.at' (ix - 1) iy else H.at' ix iy
    let heightRight := if ix < H.width - 1 then H.at' (ix + 1) iy else H.at' ix iy
    let heightUp := if 0 < iy then H.at' ix (iy - 1) else H.at' ix iy
    let heightDown := if iy < H.height - 1 then H.at' ix (iy + 1) else H.at' ix iy
    ((heightRight - heightLeft) * (1/2), (heightDown - heightUp) * (1/2))

end Heightmap

/-! ## Helper lemmas about the heightmap kernels -/

/-- The strict bounds test of the sampler and of the gradient, rephrased over
integer coordinates (valid once the dimensions are at least 1). -/
lemma bilinear_bounds_int (H : Heightmap) (x y : ℤ) (hw : 1 ≤ H.width) (hh : 1 ≤ H.height) :
    ((x : ℝ) < 0 ∨ (y : ℝ) < 0 ∨ ((H.width - 1 : ℕ) : ℝ) ≤ (x : ℝ) ∨
      ((H.height - 1 : ℕ) : ℝ) ≤ (y : ℝ)) ↔
    ¬(0 ≤ x ∧ 0 ≤ y ∧ x < (H.width : ℤ) - 1 ∧ y < (H.height : ℤ) - 1) := by
  have hiw : ((H.width - 1 : ℕ) : ℤ) = (H.width : ℤ) - 1 := by omega
  have hih : ((H.height - 1 : ℕ) : ℤ) = (H.height : ℤ) - 1 := by omega
  simp only [not_and_or, not_le, not_lt]
  constructor
  · rintro (h | h | h | h)
    · exact Or.inl (by exact_mod_cast h)
    · exact Or.inr (Or.inl (by exact_mod_cast h))
    · refine Or.inr (Or.inr (Or.inl ?_))
      rw [← hiw]; exact_mod_cast h
    · refine Or.inr (Or.inr (Or.inr ?_))
      rw [← hih]; exact_mod_cast h
  · rintro (h | h | h | h)
    · exact Or.inl (by exact_mod_cast h)
    · exact Or.inr (Or.inl (by exact_mod_cast h))
    · refine Or.inr (Or.inr (Or.inl ?_))
      rw [← hiw] at h; exact_mod_cast h
    · refine Or.inr (Or.inr (Or.inr ?_))
      rw [← hih] at h; exact_mod_cast h

/-- At an exact in-domain integer position the bilinear sampler returns the
cell value: both fractions vanish. -/
lemma getHeightInterpolated_int (H : Heightmap) (x y : ℤ) (hx : 0 ≤ x) (hy : 0 ≤ y)
    (hxw : x < (H.width : ℤ) - 1) (hyh : y < (H.height : ℤ) - 1) :
    H.getHeightInterpolated (x : ℝ) (y : ℝ) = H.at' x.toNat y.toNat := by
  have hw : 1 ≤ H.width := by omega
  have hh : 1 ≤ H.height := by omega
  rw [Heightmap.getHeightInterpolated,
    if_neg (fun hc => (bilinear_bounds_int H x y hw hh).1 hc ⟨hx, hy, hxw, hyh⟩)]
  simp only [Int.floor_intCast]
  have hxx : ((x.toNat : ℝ)) = (x : ℝ) := by exact_mod_cast Int.toNat_of_nonneg hx
  have hyy : ((y.toNat : ℝ)) = (y : ℝ) := by exact_mod_cast Int.toNat_of_nonneg hy
  rw [hxx, hyy]
  ring_nf

/-- `getHeightInterpolated` at an in-domain natural-number position. -/
lemma getHeightInterpolated_nat (H : Heightmap) (x y : ℕ) (hxw : x + 1 < H.width)
    (hyh : y + 1 < H.height) :
    H.getHeightInterpolated (x : ℝ) (y : ℝ) = H.at' x y := by
  have h := getHeightInterpolated_int H x y (Int.natCast_nonneg x) (Int.natCast_nonneg y)
    (by omega) (by omega)
  simpa using h

/-- `getGradient` at an in-domain natural-number position: central
differences with one-sided substitution at the border. -/
lemma getGradient_nat (H : Heightmap) (x y : ℕ) (hxw : x + 1 < H.width)
    (hyh : y + 1 < H.height) :
    H.getGradient (x : ℝ) (y : ℝ) =
      (((if x < H.width - 1 then H.at' (x + 1) y else H.at' x y) -
        (if 0 < x then H.at' (x - 1) y else H.at' x y)) * (1/2),
       ((if y < H.height - 1 then H.at' x (y + 1) else H.at' x y) -
        (if 0 < y then H.at' x (y - 1) else H.at' x y)) * (1/2)) := by
  have hw : 1 ≤ H.width := by omega
  have hh : 1 ≤ H.height := by omega
  rw [Heightmap.getGradient,
    if_neg (fun hc => (bilinear_bounds_int H x y hw hh).1 (by exact_mod_cast hc)
      ⟨Int.natCast_nonneg x, Int.natCast_nonneg y, by omega, by omega⟩)]
  simp [Int.floor_natCast]

/-! ## Perlin noise (`PerlinNoise.cpp`)

`initPermutation` fills a 256-entry array with `0..255`, shuffles it with a
`std::mt19937` seeded from the 32-bit seed, and duplicates it into the
512-entry table `p` (`p[i] = p[i+256] = permutation[i]`).  Both the Mersenne
twister and `std::shuffle` are deterministic algorithms, so the table is a
pure function of the seed (the exact permutation produced by `std::shuffle`
is standard-library-defined, so it is left abstract here); every theorem
below is proved for an arbitrary table and therefore holds for the table of
any seed.  `C++ int32 & 255` on a two's-complement value equals the
mathematical `x mod 256` (also for negative `x`), i.e. `Int.emod x 256`. -/

/-- The noise generator: the seed-derived permutation table.  `perm k` models
`permutation[k]` for `k < 256`. -/
structure PerlinNoise where
  perm : ℕ → ℕ

namespace PerlinNoise

/-- Reading the duplicated 512-entry table `p`: `p[k] = permutation[k % 256]`
for every index `k < 512` the code uses. -/
def pval (pn : PerlinNoise) (k : ℕ) : ℕ := pn.perm (k % 256)

/-- `PerlinNoise::hash(ix, iy)` (`PerlinNoise.cpp:29-32`):
`p[p[ix & 255] + (iy & 255)]`. -/
def hash (pn : PerlinNoise) (ix iy : ℤ) : ℕ :=
  pn.pval (pn.pval (ix % 256).toNat + (iy % 256).toNat)

/-- `PerlinNoise::fade(t) = 6t⁵ - 15t⁴ + 10t³` as written in the source. -/
def fade (t : ℝ) : ℝ := t * t * t * (t * (t * 6 - 15) + 10)

/-- `PerlinNoise::lerp(t, a, b) = a + t(b - a)`. -/
def lerp (t a b : ℝ) : ℝ := a + t * (b - a)

/-- `PerlinNoise::grad(ix, iy, dx, dy)` (`PerlinNoise.cpp:50-68`): hash
masked with `& 15` then `& 7` selects one of 8 gradient directions. -/
def grad (pn : PerlinNoise) (ix iy : ℤ) (dx dy : ℝ) : ℝ :=
  match (pn.hash ix iy % 16) % 8 with
  | 0 => dx + dy
  | 1 => dx - dy
  | 2 => -dx + dy
  | 3 => -dx - dy
  | 4 => dx
  | 5 => -dx
  | 6 => dy
  | 7 => -dy
  | _ + 8 => 0

/-- `PerlinNoise::noise(x, y)` (`PerlinNoise.cpp:70-97`). -/
noncomputable def noise (pn : PerlinNoise) (x y : ℝ) : ℝ :=
  let ix0 : ℤ := ⌊x⌋
  let iy0 : ℤ := ⌊y⌋
  let fx : ℝ := x - ix0
  let fy : ℝ := y - iy0
  let u := fade fx
  let v := fade fy
  let g00 := pn.grad ix0 iy0 fx fy
  let g10 := pn.grad (ix0 + 1) iy0 (fx - 1) fy
  let g01 := pn.grad ix0 (iy0 + 1) fx (fy - 1)
  let g11 := pn.grad (ix0 + 1) (iy0 + 1) (fx - 1) (fy - 1)
  lerp v (lerp u g00 g10) (lerp u g01 g11)

end PerlinNoise

/-! ## Terrain generators (`TerrainGenerators.cpp`)

Each generator allocates a zero-filled `Heightmap(width, height)` and then
sets every cell `(x, y)` once, in row-major loop order, to a value that
depends only on `(x, y)`.  The embedding therefore builds the backing list
pointwise: cell `i` of the data is the generator's formula at
`(i % width, i / width)`, exactly the cell the loop writes there. -/

/-- Build a heightmap whose cell `(x, y)` holds `f x y`. -/
def Heightmap.ofFn (w h : ℕ) (f : ℕ → ℕ → ℝ) : Heightmap :=
  ⟨w, h, (List.range (w * h)).map (fun i => f (i % w) (i / w)), by simp⟩

lemma Heightmap.at_ofFn (w h : ℕ) (f : ℕ → ℕ → ℝ) (x y : ℕ) (hx : x < w) (hy : y < h) :
    (Heightmap.ofFn w h f).at' x y = f x y := by
  have hidx : y * w + x < w * h := by
    calc y * w + x < y * w + w := by omega
    _ = (y + 1) * w := by ring
    _ ≤ h * w := Nat.mul_le_mul_right w (by omega)
    _ = w * h := Nat.mul_comm h w
  have hmod : (y * w + x) % w = x := by
    rw [Nat.add_comm, Nat.add_mul_mod_self_right, Nat.mod_eq_of_lt hx]
  have hdiv : (y * w + x) / w = y := by
    rw [Nat.add_comm, Nat.add_mul_div_right _ _ (by omega : 0 < w),
      Nat.div_eq_of_lt hx, Nat.zero_add]
  simp only [Heightmap.ofFn, Heightmap.at', List.getD_eq_getElem?_getD]
  rw [List.getElem?_map, List.getElem?_range hidx]
  simp [hmod, hdiv]

namespace generators

/-- `generators::createFlat` (`TerrainGenerators.cpp:10-14`). -/
def createFlat (width height : ℕ) (elevation : ℝ) : Heightmap :=
  (Heightmap.mk0 width height).fill elevation

/-- `generators::createSemiSphere` (`TerrainGenerators.cpp:16-39`): inside
(`d² ≤ r²`) the cell gets `√(r² − d²)`, outside `0`. -/
noncomputable def createSemiSphere (width height : ℕ) (centerX centerY radius : ℝ) :
    Heightmap :=
  Heightmap.ofFn width height fun x y =>
    let dx := (x : ℝ) - centerX
    let dy := (y : ℝ) - centerY
    let distanceSquared := dx * dx + dy * dy
    if distanceSquared ≤ radius * radius then Real.sqrt (radius * radius - distanceSquared)
    else 0

/-- `generators::createCone` (`TerrainGenerators.cpp:41-62`): inside
(`d ≤ r`, boundary included) the cell gets `peak · (1 − d/r)`, outside `0`. -/
noncomputable def createCone (width height : ℕ) (centerX centerY radius peakHeight : ℝ) :
    Heightmap :=
  Heightmap.ofFn width height fun x y =>
    let dx := (x : ℝ) - centerX
    let dy := (y : ℝ) - centerY
    let distance := Real.sqrt (dx * dx + dy * dy)
    if distance ≤ radius then peakHeight * (1 - distance / radius) else 0

end generators

/-! ## Hydraulic erosion (`HydraulicErosion.cpp`) -/

/-- `HydraulicErosionParams` (`HydraulicErosion.hpp:12-23`) with its member
defaults. -/
structure HydraulicErosionParams where
  maxIterations : ℤ
  inertia : ℝ
  sedimentCapacityFactor : ℝ
  minSedimentCapacity : ℝ
  erodeSpeed : ℝ
  depositSpeed : ℝ
  evaporateSpeed : ℝ
  gravity : ℝ
  maxDropletSpeed : ℝ
  erosionRadius : ℤ

/-- The default-constructed `HydraulicErosionParams`. -/
noncomputable def defaultParams : HydraulicErosionParams :=
  ⟨30, 0.05, 4, 0.01, 0.3, 0.3, 0.01, 4, 10, 1⟩

/-- The local droplet state of `HydraulicErosion::simulateParticle`
(position, direction, speed, water, sediment). -/
structure Droplet where
  posX : ℝ
  posY : ℝ
  dirX : ℝ
  dirY : ℝ
  speed : ℝ
  water : ℝ
  sediment : ℝ

/-- Linear-falloff kernel weight `max(0, 1 - d/R)` at integer offset
`(dx, dy)` from the kernel center, where `d = sqrt(float(dx*dx + dy*dy))`
(`HydraulicErosion.cpp:225-233`). -/
noncomputable def kernelWeight (R : ℤ) (dx dy : ℤ) : ℝ :=
  max 0 (1 - Real.sqrt ((dx * dx + dy * dy : ℤ) : ℝ) / (R : ℝ))

/-- Kernel offsets `-R .. R` of the first/second sweep's `for` loops. -/
def kernelOffsets (R : ℤ) : List ℤ := (List.range (2 * R.toNat + 1)).map (fun i => (i : ℤ) - R)

open Classical in
/-- First sweep of `HydraulicErosion::applyHeightChange`
(`HydraulicErosion.cpp:210-236`): sum the linear-falloff weights over all
in-grid cells of the bounding square whose distance to the center is `≤ R`. -/
noncomputable def totalWeight (R : ℤ) (H : Heightmap) (centerX centerY : ℤ) : ℝ :=
  ((kernelOffsets R).map fun dy =>
    ((kernelOffsets R).map fun dx =>
      let x := centerX + dx
      let y := centerY + dy
      if 0 ≤ x ∧ x < (H.width : ℤ) ∧ 0 ≤ y ∧ y < (H.height : ℤ) ∧
          Real.sqrt ((dx * dx + dy * dy : ℤ) : ℝ) ≤ (R : ℝ) then
        kernelWeight R dx dy
      else 0).sum).sum

/-- Rebuild a list by applying `f` to each element together with its index
(used to express the second sweep of `applyHeightChange`, which writes every
kernel cell exactly once). -/
def writeIdx (f : ℕ → ℝ → ℝ) : ℕ → List ℝ → List ℝ
  | _, [] => []
  | i, v :: t => f i v :: writeIdx f (i + 1) t

lemma writeIdx_length (f : ℕ → ℝ → ℝ) (i : ℕ) (l : List ℝ) :
    (writeIdx f i l).length = l.length := by
  induction l generalizing i with
  | nil => rfl
  | cons v t ih => simp [writeIdx, ih]

lemma writeIdx_getD (f : ℕ → ℝ → ℝ) (i j : ℕ) (l : List ℝ) :
    (writeIdx f i l).getD j 0 = if j < l.length then f (i + j) (l.getD j 0) else 0 := by
  induction l generalizing i j with
  | nil => simp [writeIdx]
  | cons v t ih =>
    cases j with
    | zero => simp [writeIdx]
    | succ j =>
      simp only [writeIdx, List.getD_cons_succ, ih, List.length_cons]
      rw [show i + 1 + j = i + (j + 1) by omega]
      simp [Nat.succ_lt_succ_iff]

open Classical in
/-- Per-cell update of the second sweep of `applyHeightChange`
(`HydraulicErosion.cpp:238-275`) at grid cell `(cx, cy)` currently holding
`v`: cells of the circular kernel receive `amount` scaled by their
normalized weight, clamped per cell so erosion cannot push the cell below
zero; all other cells are unchanged.  (The C++ loop ranges only over the
bounding square `|dx|,|dy| ≤ R`, but any cell with `d ≤ R` lies in that
square, since `|dx| ≤ √(dx²+dy²)`; each in-square in-grid cell is visited
exactly once and its `oldHeight` is read before its own write, so the loop
equals this pointwise map.) -/
noncomputable def kernelCellUpdate (R : ℤ) (centerX centerY : ℤ) (W amount : ℝ)
    (cx cy : ℕ) (v : ℝ) : ℝ :=
  let dx := (cx : ℤ) - centerX
  let dy := (cy : ℤ) - centerY
  if Real.sqrt ((dx * dx + dy * dy : ℤ) : ℝ) ≤ (R : ℝ) then
    let weight := kernelWeight R dx dy
    let weightedAmount := weight / W * amount
    let weightedAmount' := if weightedAmount < 0 then max weightedAmount (-v) else weightedAmount
    v + weightedAmount'
  else v

open Classical in
/-- `HydraulicErosion::applyHeightChange` (`HydraulicErosion.cpp:186-276`).
Radius ≤ 1: single-cell write at the truncated center, erosion clamped so
the cell cannot drop below zero.  Radius ≥ 2: distance-weighted kernel,
applied only when the total weight exceeds `0.0001`. -/
noncomputable def applyHeightChange (p : HydraulicErosionParams) (H : Heightmap)
    (posX posY amount : ℝ) : Heightmap :=
  let centerX := rtrunc posX
  let centerY := rtrunc posY
  if p.erosionRadius ≤ 1 then
    if 0 ≤ centerX ∧ centerX < (H.width : ℤ) ∧ 0 ≤ centerY ∧ centerY < (H.height : ℤ) then
      let oldHeight := H.at' centerX.toNat centerY.toNat
      let amount' := if amount < 0 then max amount (-oldHeight) else amount
      H.set centerX.toNat centerY.toNat (oldHeight + amount')
    else H
  else
    let W := totalWeight p.erosionRadius H centerX centerY
    if 1 / 10000 < W then
      ⟨H.width, H.height,
        writeIdx (fun i v =>
          kernelCellUpdate p.erosionRadius centerX centerY W amount
            (i % H.width) (i / H.width) v) 0 H.data,
        by rw [writeIdx_length]; exact H.hlen⟩
    else H

/-- The four-corner bilinear write of `simulateParticle`
(`HydraulicErosion.cpp:102-106` and `129-133`): add `amount` distributed
with bilinear weights from offsets `(ox, oy)` to the four corners of the
cell with north-west node `(nx, ny)`.  The four flat indices
`i, i+1, i+w, i+w+1` are the cells `(nx, ny), (nx+1, ny), (nx, ny+1),
(nx+1, ny+1)`; they are pairwise distinct, so the reads all see the
original heights. -/
def fourCornerAdd (H : Heightmap) (nx ny : ℕ) (ox oy amount : ℝ) : Heightmap :=
  (((H.set nx ny (H.at' nx ny + amount * (1 - ox) * (1 - oy))).set
      (nx + 1) ny (H.at' (nx + 1) ny + amount * ox * (1 - oy))).set
      nx (ny + 1) (H.at' nx (ny + 1) + amount * (1 - ox) * oy)).set
      (nx + 1) (ny + 1) (H.at' (nx + 1) (ny + 1) + amount * ox * oy)

open Classical in
/-- One iteration of the lifetime loop of `HydraulicErosion::simulateParticle`
(`HydraulicErosion.cpp:32-147`).  `none` models `break` (droplet left the
grid, or stopped moving); `some (H', d')` is the updated heightmap and
droplet state after the iteration. -/
noncomputable def simStep (p : HydraulicErosionParams) (H : Heightmap) (d : Droplet) :
    Option (Heightmap × Droplet) :=
  let nodeX := rtrunc d.posX
  let nodeY := rtrunc d.posY
  if nodeX < 0 ∨ (H.width : ℤ) - 1 ≤ nodeX ∨ nodeY < 0 ∨ (H.height : ℤ) - 1 ≤ nodeY then
    none
  else
    let currentHeight := H.getHeightInterpolated d.posX d.posY
    let g := H.getGradient d.posX d.posY
    let dirX0 := d.dirX * p.inertia - g.1 * (1 - p.inertia)
    let dirY0 := d.dirY * p.inertia - g.2 * (1 - p.inertia)
    let dirLength := Real.sqrt (dirX0 * dirX0 + dirY0 * dirY0)
    let dirX := if dirLength ≠ 0 then dirX0 / dirLength else dirX0
    let dirY := if dirLength ≠ 0 then dirY0 / dirLength else dirY0
    let oldPosX := d.posX
    let oldPosY := d.posY
    let posX := d.posX + dirX
    let posY := d.posY + dirY
    if (dirX = 0 ∧ dirY = 0) ∨ posX < 0 ∨ ((H.width - 1 : ℕ) : ℝ) ≤ posX ∨
        posY < 0 ∨ ((H.height - 1 : ℕ) : ℝ) ≤ posY then
      none
    else
      let newHeight := H.getHeightInterpolated posX posY
      let deltaHeight := newHeight - currentHeight
      let sedimentCapacity :=
        max (-deltaHeight * d.speed * d.water * p.sedimentCapacityFactor)
          p.minSedimentCapacity
      let oldNodeX := rtrunc oldPosX
      let oldNodeY := rtrunc oldPosY
      let oldCellOffsetX := oldPosX - oldNodeX
      let oldCellOffsetY := oldPosY - oldNodeY
      let step :=
        if d.sediment > sedimentCapacity ∨ deltaHeight > 0 then
          let amountToDeposit :=
            if deltaHeight > 0 then min deltaHeight d.sediment
            else (d.sediment - sedimentCapacity) * p.depositSpeed
          if 0 ≤ oldNodeX ∧ oldNodeX < (H.width : ℤ) - 1 ∧
              0 ≤ oldNodeY ∧ oldNodeY < (H.height : ℤ) - 1 then
            (fourCornerAdd H oldNodeX.toNat oldNodeY.toNat
                oldCellOffsetX oldCellOffsetY amountToDeposit,
              d.sediment - amountToDeposit)
          else (H, d.sediment)
        else
          let amountToErode :=
            min ((sedimentCapacity - d.sediment) * p.erodeSpeed) (-deltaHeight)
          if 1 < p.erosionRadius then
            (applyHeightChange p H oldPosX oldPosY (-amountToErode),
              d.sediment + amountToErode)
          else
            if 0 ≤ oldNodeX ∧ oldNodeX < (H.width : ℤ) - 1 ∧
                0 ≤ oldNodeY ∧ oldNodeY < (H.height : ℤ) - 1 then
              (fourCornerAdd H oldNodeX.toNat oldNodeY.toNat
                  oldCellOffsetX oldCellOffsetY (-amountToErode),
                d.sediment + amountToErode)
            else (H, d.sediment)
      let speedSq := d.speed * d.speed - deltaHeight * p.gravity
      let speed' := min (Real.sqrt (max 0 speedSq)) p.maxDropletSpeed
      let water' := d.water * (1 - p.evaporateSpeed)
      some (step.1, ⟨posX, posY, dirX, dirY, speed', water', step.2⟩)

/-- The lifetime loop of `simulateParticle`, with the remaining iteration
count as fuel. -/
noncomputable def simLoop (p : HydraulicErosionParams) : ℕ → Heightmap → Droplet → Heightmap
  | 0, H, _ => H
  | n + 1, H, d =>
    match simStep p H d with
    | none => H
    | some (H', d') => simLoop p n H' d'

/-- `HydraulicErosion::simulateParticle(heightmap, startX, startY)`
(`HydraulicErosion.cpp:23-148`): run the droplet from `(startX, startY)`
with initial direction `(0,0)`, speed `1`, water `1`, sediment `0`, for at
most `maxIterations` iterations. -/
noncomputable def simulateParticle (p : HydraulicErosionParams) (H : Heightmap)
    (startX startY : ℝ) : Heightmap :=
  simLoop p p.maxIterations.toNat H ⟨startX, startY, 0, 0, 1, 1, 0⟩

/-- `HydraulicErosion::erode(heightmap, numParticles, absoluteMaxHeight)`
(`HydraulicErosion.cpp:150-184`): run `numParticles` independent droplets
sequentially on the shared heightmap.  Start positions are drawn from a
`std::uniform_real_distribution` over a `std::mt19937` seeded from
`std::random_device` — a fresh entropy source on every call, with no seed
parameter in the API — modelled here by the explicit draw sequence
`draws`.  The method also records `m_initialHeightmap` and
`m_initialMaxHeight` (from `absoluteMaxHeight`, or by scanning the map);
those two members are never read by `simulateParticle` or
`applyHeightChange`, so they cannot influence the resulting heightmap and
are not part of the state modelled here. -/
noncomputable def erode (p : HydraulicErosionParams) (H : Heightmap) (numParticles : ℤ)
    (draws : ℕ → ℝ × ℝ) : Heightmap :=
  (List.range numParticles.toNat).foldl
    (fun acc i => simulateParticle p acc (draws i).1 (draws i).2) H

/-! ## Job configurations and the parser (`SimulationJob.hpp`, `ConfigParser.cpp`)

The parser receives a type-tagged JSON tree (`nlohmann::json`).  A job's
`config` object is modelled as an association list from string keys to
number values (integer or floating); `json.contains(k)` is a key lookup and
`get<int>` / `get<double>` read the value (`static_cast` of a `double` to
`int` truncates toward zero). -/

/-- A JSON number value: `nlohmann::json` integer or floating entry. -/
inductive JVal where
  | jint (z : ℤ)
  | jnum (q : ℚ)
deriving DecidableEq

/-- `get<int>` on a JSON number: integers read exactly; a floating value is
truncated toward zero. -/
def JVal.toIntVal : JVal → ℤ
  | .jint z => z
  | .jnum q => if 0 ≤ q then ⌊q⌋ else ⌈q⌉

/-- `get<double>` on a JSON number. -/
def JVal.toNumVal : JVal → ℚ
  | .jint z => (z : ℚ)
  | .jnum q => q

/-- A JSON object with number-valued fields; `jlookup` is
`json.contains(k) ? some json[k] : none`. -/
def jlookup (obj : List (String × JVal)) (k : String) : Option JVal :=
  (obj.find? (fun e => e.1 = k)).map (·.2)

/-- `HydraulicErosionConfig` (`SimulationJob.hpp:11-23`). -/
structure HydraulicErosionConfig where
  numParticles : ℤ
  erosionRate : ℚ
  depositionRate : ℚ
  evaporationRate : ℚ
  sedimentCapacity : ℚ
  minSlope : ℚ
  inertia : ℚ
  gravity : ℚ
  maxLifetime : ℤ
  initialWater : ℚ
  initialSpeed : ℚ
deriving DecidableEq

/-- The member defaults of `HydraulicErosionConfig`. -/
def defaultHydraulicConfig : HydraulicErosionConfig :=
  ⟨50000, 0.3, 0.3, 0.01, 4.0, 0.01, 0.05, 4.0, 30, 1.0, 1.0⟩

/-- `ThermalErosionConfig` (`SimulationJob.hpp:26-30`). -/
structure ThermalErosionConfig where
  talusAngle : ℚ
  transferRate : ℚ
  iterations : ℤ
deriving DecidableEq

/-- The member defaults of `ThermalErosionConfig`. -/
def defaultThermalConfig : ThermalErosionConfig := ⟨0.7, 0.5, 100⟩

/-- `ConfigParser::parseHydraulicConfig` (`ConfigParser.cpp:136-153`): start
from the defaults and overwrite each of the eleven recognized keys that is
present in the config object.  No other key is read. -/
def parseHydraulicConfig (obj : List (String × JVal)) : HydraulicErosionConfig where
  numParticles := ((jlookup obj "numParticles").map JVal.toIntVal).getD
    defaultHydraulicConfig.numParticles
  erosionRate := ((jlookup obj "erosionRate").map JVal.toNumVal).getD
    defaultHydraulicConfig.erosionRate
  depositionRate := ((jlookup obj "depositionRate").map JVal.toNumVal).getD
    defaultHydraulicConfig.depositionRate
  evaporationRate := ((jlookup obj "evaporationRate").map JVal.toNumVal).getD
    defaultHydraulicConfig.evaporationRate
  sedimentCapacity := ((jlookup obj "sedimentCapacity").map JVal.toNumVal).getD
    defaultHydraulicConfig.sedimentCapacity
  minSlope := ((jlookup obj "minSlope").map JVal.toNumVal).getD
    defaultHydraulicConfig.minSlope
  inertia := ((jlookup obj "inertia").map JVal.toNumVal).getD
    defaultHydraulicConfig.inertia
  gravity := ((jlookup obj "gravity").map JVal.toNumVal).getD
    defaultHydraulicConfig.gravity
  maxLifetime := ((jlookup obj "maxLifetime").map JVal.toIntVal).getD
    defaultHydraulicConfig.maxLifetime
  initialWater := ((jlookup obj "initialWater").map JVal.toNumVal).getD
    defaultHydraulicConfig.initialWater
  initialSpeed := ((jlookup obj "initialSpeed").map JVal.toNumVal).getD
    defaultHydraulicConfig.initialSpeed

/-- `ConfigParser::parseThermalConfig` (`ConfigParser.cpp:155-164`). -/
def parseThermalConfig (obj : List (String × JVal)) : ThermalErosionConfig where
  talusAngle := ((jlookup obj "talusAngle").map JVal.toNumVal).getD
    defaultThermalConfig.talusAngle
  transferRate := ((jlookup obj "transferRate").map JVal.toNumVal).getD
    defaultThermalConfig.transferRate
  iterations := ((jlookup obj "iterations").map JVal.toIntVal).getD
    defaultThermalConfig.iterations

/-- The tagged job configuration (`std::variant<HydraulicErosionConfig,
ThermalErosionConfig>`). -/
inductive JobConfig where
  | hydraulic (c : HydraulicErosionConfig)
  | thermal (c : ThermalErosionConfig)
deriving DecidableEq

/-- `SimulationJob` (`SimulationJob.hpp:58-65`). -/
structure SimulationJob where
  id : String
  name : String
  startFrame : ℤ
  endFrame : ℤ
  config : JobConfig
  enabled : Bool
deriving DecidableEq

/-- `PipelineConfig` (`SimulationJob.hpp:68-72`), restricted to the members
the validator and the executor read (`totalFrames` and `jobs`; the `step0`
modeling spec only feeds the frame-0 initializer, which runs before the
executor is called). -/
structure PipelineConfig where
  totalFrames : ℤ
  jobs : List SimulationJob

/-! ## Pipeline validator (`JobValidator.cpp`)

The C++ validator reports through lists of strings formatted with
`ostringstream`; the embedding keeps the structured content of each message
(which job, which kind of violation, which frames) instead of the formatted
text. -/

/-- The kind of per-job frame-range violation
(`JobValidator.cpp:92-122`, one distinct error string each). -/
inductive RangeErrorKind where
  | startFrameTooSmall
  | endFrameExceedsTotal
  | startAfterEnd
deriving DecidableEq

/-- An entry of `ValidationResult::errors`: either a range error naming the
offending job, or the single "Uncovered frames: ..." summary error. -/
inductive ValidationError where
  | range (jobName : String) (kind : RangeErrorKind)
  | uncovered (frames : List ℤ)
deriving DecidableEq

/-- An entry of `ValidationResult::warnings` (`JobValidator.cpp:80-85`):
"Jobs 'A' and 'B' overlap on frames s-e". -/
structure OverlapWarning where
  nameI : String
  nameJ : String
  overlapStart : ℤ
  overlapEnd : ℤ
deriving DecidableEq

/-- `ValidationResult` (`SimulationJob.hpp:75-80`). -/
structure ValidationResult where
  isValid : Bool
  uncoveredFrames : List ℤ
  warnings : List OverlapWarning
  errors : List ValidationError
deriving DecidableEq

/-- `JobValidator::validateJobRanges(totalFrames, jobs)`
(`JobValidator.cpp:92-122`): per job, in declaration order, push an error
for `startFrame < 1`, for `endFrame > totalFrames`, and for
`startFrame > endFrame`. -/
def validateJobRanges (totalFrames : ℤ) (jobs : List SimulationJob) : List ValidationError :=
  (jobs.map fun job =>
    (if job.startFrame < 1 then [ValidationError.range job.name .startFrameTooSmall] else []) ++
    (if totalFrames < job.endFrame then [ValidationError.range job.name .endFrameExceedsTotal]
      else []) ++
    (if job.endFrame < job.startFrame then [ValidationError.range job.name .startAfterEnd]
      else [])).flatten

/-- `JobValidator::findUncoveredFrames(totalFrames, jobs)`
(`JobValidator.cpp:39-64`): the frames of `[1, totalFrames]` (ascending)
not covered by any enabled job.  (The C++ marks a boolean array: frame `f`
of `[1, totalFrames]` ends up marked iff some enabled job has
`startFrame ≤ f ≤ endFrame`; the clamping of the marking loop to
`[1, totalFrames]` only skips marks outside the collected range.) -/
def findUncoveredFrames (totalFrames : ℤ) (jobs : List SimulationJob) : List ℤ :=
  ((List.range totalFrames.toNat).map fun (i : ℕ) => (i : ℤ) + 1).filter fun f =>
    !jobs.any fun job => job.enabled && decide (job.startFrame ≤ f) && decide (f ≤ job.endFrame)

/-- Indexing of the job vector (`jobs[i]`); out-of-range reads never occur
in the loops below. -/
def jobAt (jobs : List SimulationJob) (i : ℕ) : SimulationJob :=
  jobs.getD i ⟨"", "", 0, 0, .thermal defaultThermalConfig, true⟩

/-- The double-loop condition of `JobValidator::checkOverlaps`: both jobs
enabled and their inclusive frame ranges intersect
(`max start ≤ min end`). -/
def overlapCond (jobs : List SimulationJob) (i j : ℕ) : Bool :=
  (jobAt jobs i).enabled && (jobAt jobs j).enabled &&
    decide (max (jobAt jobs i).startFrame (jobAt jobs j).startFrame ≤
      min (jobAt jobs i).endFrame (jobAt jobs j).endFrame)

/-- The index pairs `(i, j)`, `i < j`, for which `JobValidator::checkOverlaps`
emits a warning, in emission order. -/
def overlapPairs (jobs : List SimulationJob) : List (ℕ × ℕ) :=
  ((List.range jobs.length).map fun i =>
    ((List.range jobs.length).filter fun j => decide (i < j) && overlapCond jobs i j).map
      fun j => (i, j)).flatten

/-- The warning `checkOverlaps` emits for the pair `(i, j)`. -/
def warnOf (jobs : List SimulationJob) (i j : ℕ) : OverlapWarning :=
  ⟨(jobAt jobs i).name, (jobAt jobs j).name,
    max (jobAt jobs i).startFrame (jobAt jobs j).startFrame,
    min (jobAt jobs i).endFrame (jobAt jobs j).endFrame⟩

/-- `JobValidator::checkOverlaps(jobs)` (`JobValidator.cpp:66-90`): for every
`i < j` with both jobs enabled and intersecting ranges, one warning naming
both jobs and the inclusive overlap window. -/
def checkOverlaps (jobs : List SimulationJob) : List OverlapWarning :=
  ((List.range jobs.length).map fun i =>
    ((List.range jobs.length).filter fun j => decide (i < j) && overlapCond jobs i j).map
      fun j => warnOf jobs i j).flatten

/-- `JobValidator::validate(config)` (`JobValidator.cpp:8-37`): range errors
first; the coverage check runs only when there are no range errors, and a
non-empty uncovered list adds the summary error; overlap warnings always;
`isValid = errors.empty && uncoveredFrames.empty`. -/
def validate (config : PipelineConfig) : ValidationResult :=
  let rangeErrors := validateJobRanges config.totalFrames config.jobs
  let uncovered :=
    if rangeErrors = [] then findUncoveredFrames config.totalFrames config.jobs else []
  let errors :=
    if rangeErrors = [] then
      if uncovered = [] then rangeErrors else rangeErrors ++ [ValidationError.uncovered uncovered]
    else rangeErrors
  { isValid := errors.isEmpty && uncovered.isEmpty
    uncoveredFrames := uncovered
    warnings := checkOverlaps config.jobs
    errors := errors }

/-! ## Pipeline executor (`JobExecutor.cpp`) -/

/-- `JobExecutor::applyJob`'s conversion of a `HydraulicErosionConfig` to
`HydraulicErosionParams` (`JobExecutor.cpp:74-82`): start from the
default-constructed params and assign the eight listed fields.
`maxDropletSpeed` and `erosionRadius` are not assigned and keep their
defaults; `initialWater` and `initialSpeed` of the config are not used. -/
noncomputable def applyJobParams (c : HydraulicErosionConfig) : HydraulicErosionParams :=
  { defaultParams with
    maxIterations := c.maxLifetime
    inertia := (c.inertia : ℝ)
    sedimentCapacityFactor := (c.sedimentCapacity : ℝ)
    minSedimentCapacity := (c.minSlope : ℝ)
    erodeSpeed := (c.erosionRate : ℝ)
    depositSpeed := (c.depositionRate : ℝ)
    evaporateSpeed := (c.evaporationRate : ℝ)
    gravity := (c.gravity : ℝ) }

/-- `JobExecutor::applyJob(job, terrain)` (`JobExecutor.cpp:67-93`):
hydraulic jobs construct a fresh simulator from the converted parameters and
call `erode(terrain, numParticles)`; thermal jobs are a placeholder no-op.
`draws` models the entropy consumed by the fresh `std::random_device`-seeded
generator of that `erode` call. -/
noncomputable def applyJob (job : SimulationJob) (terrain : Heightmap)
    (draws : ℕ → ℝ × ℝ) : Heightmap :=
  match job.config with
  | .hydraulic c => erode (applyJobParams c) terrain c.numParticles draws
  | .thermal _ => terrain

/-- `JobExecutor::getJobsForFrame(frame, jobs)` (`JobExecutor.cpp:54-65`):
the enabled jobs whose inclusive range contains `frame`, in declaration
order. -/
def getJobsForFrame (frame : ℤ) (jobs : List SimulationJob) : List SimulationJob :=
  jobs.filter fun job =>
    job.enabled && decide (job.startFrame ≤ frame) && decide (frame ≤ job.endFrame)

/-- `JobExecutor::executeFrame` (`JobExecutor.cpp:33-52`): apply the selected
jobs in order.  `k` counts the `applyJob` calls made so far, so each call
consumes its own entropy `entropy k` (each C++ call constructs a fresh
`std::random_device`-seeded generator). -/
noncomputable def executeFrame (jobs : List SimulationJob) (terrain : Heightmap)
    (entropy : ℕ → ℕ → ℝ × ℝ) (k : ℕ) : Heightmap × ℕ :=
  jobs.foldl (fun st job => (applyJob job st.1 (entropy st.2), st.2 + 1)) (terrain, k)

/-- `JobExecutor::execute(config, terrain, onFrameComplete, ...)`
(`JobExecutor.cpp:7-31`): for each frame `1 .. totalFrames`, apply the
applicable jobs in order, then fire `onFrameComplete(frame, terrain)` with
the live heightmap.  The result pairs the final heightmap with the ordered
list of `(frame, heightmap)` observations the frame callback makes.  (The
`onJobStart`/`onJobEnd` callbacks receive only ids, names and the frame
number and cannot affect the heightmap.) -/
noncomputable def execute (config : PipelineConfig) (terrain : Heightmap)
    (entropy : ℕ → ℕ → ℝ × ℝ) : Heightmap × List (ℤ × Heightmap) :=
  let res := ((List.range config.totalFrames.toNat).map fun (i : ℕ) => (i : ℤ) + 1).foldl
    (fun st frame =>
      let fr := executeFrame (getJobsForFrame frame config.jobs) st.1 entropy st.2.1
      (fr.1, fr.2, st.2.2 ++ [(frame, fr.1)]))
    (terrain, 0, [])
  (res.1, res.2.2)

/-! ## Perlin periodicity helpers -/

lemma hash_add_256 (pn : PerlinNoise) (ix iy : ℤ) :
    pn.hash (ix + 256) (iy + 256) = pn.hash ix iy := by
  have hx : (ix + 256) % 256 = ix % 256 := by omega
  have hy : (iy + 256) % 256 = iy % 256 := by omega
  simp [PerlinNoise.hash, hx, hy]

lemma grad_add_256 (pn : PerlinNoise) (ix iy : ℤ) (dx dy : ℝ) :
    pn.grad (ix + 256) (iy + 256) dx dy = pn.grad ix iy dx dy := by
  simp [PerlinNoise.grad, hash_add_256]

/-! ## Claim theorems -/

/-- C5: for every heightmap (of positive dimensions, the C++ being undefined
on zero-sized maps) and every integer pair `(x, y)`, the bilinear sampler
returns `H[x, y]` exactly on the strict domain
`0 ≤ x, 0 ≤ y, x < width-1, y < height-1`, and returns `0.0` outside it —
in particular also on the last row `y = height-1` and column `x = width-1`. -/
theorem bilinear_integer_points (H : Heightmap) (x y : ℤ) (hw : 1 ≤ H.width)
    (hh : 1 ≤ H.height) :
    H.getHeightInterpolated (x : ℝ) (y : ℝ) =
      if 0 ≤ x ∧ 0 ≤ y ∧ x < (H.width : ℤ) - 1 ∧ y < (H.height : ℤ) - 1 then
        H.at' x.toNat y.toNat
      else 0 := by
  by_cases hc : 0 ≤ x ∧ 0 ≤ y ∧ x < (H.width : ℤ) - 1 ∧ y < (H.height : ℤ) - 1
  · rw [if_pos hc]
    exact getHeightInterpolated_int H x y hc.1 hc.2.1 hc.2.2.1 hc.2.2.2
  · rw [if_neg hc, Heightmap.getHeightInterpolated,
      if_pos ((bilinear_bounds_int H x y hw hh).2 hc)]

/-- A concrete 2×2 heightmap for the C5 witness. -/
def bilinearWitnessMap : Heightmap := ⟨2, 2, [1, 2, 3, 4], rfl⟩

/-- Witness for C5: on the 2×2 map `[1,2,3,4]` the sampler returns cell
`(0,0)` exactly, and `0` at the in-grid corner `(1,1)` (last row and
column). -/
theorem bilinear_integer_points_witness :
    bilinearWitnessMap.getHeightInterpolated 0 0 = 1 ∧
    bilinearWitnessMap.getHeightInterpolated 1 1 = 0 := by
  constructor
  · have h := bilinear_integer_points bilinearWitnessMap 0 0 (by norm_num [bilinearWitnessMap])
      (by norm_num [bilinearWitnessMap])
    norm_num [bilinearWitnessMap] at h
    simpa [Heightmap.at', bilinearWitnessMap] using h
  · have h := bilinear_integer_points bilinearWitnessMap 1 1 (by norm_num [bilinearWitnessMap])
      (by norm_num [bilinearWitnessMap])
    norm_num [bilinearWitnessMap] at h
    simpa using h

/-- C6: the noise value is a pure (hence run-to-run deterministic) function
of the seed-derived permutation table and the point, and it is 256-periodic
along both axes simultaneously: `noise(x+256, y+256) = noise(x, y)`. -/
theorem noise_deterministic_periodic (pn : PerlinNoise) (x y : ℝ) :
    pn.noise x y = pn.noise x y ∧ pn.noise (x + 256) (y + 256) = pn.noise x y := by
  refine ⟨rfl, ?_⟩
  rw [PerlinNoise.noise, PerlinNoise.noise]
  have hx : (x + 256 : ℝ) = x + ((256 : ℤ) : ℝ) := by norm_num
  have hy : (y + 256 : ℝ) = y + ((256 : ℤ) : ℝ) := by norm_num
  rw [hx, hy, Int.floor_add_int, Int.floor_add_int]
  have e1 : ⌊x⌋ + 256 + 1 = ⌊x⌋ + 1 + 256 := by ring
  have e2 : ⌊y⌋ + 256 + 1 = ⌊y⌋ + 1 + 256 := by ring
  have efx : x + ((256 : ℤ) : ℝ) - ((⌊x⌋ + 256 : ℤ) : ℝ) = x - (⌊x⌋ : ℝ) := by
    push_cast; ring
  have efy : y + ((256 : ℤ) : ℝ) - ((⌊y⌋ + 256 : ℤ) : ℝ) = y - (⌊y⌋ : ℝ) := by
    push_cast; ring
  simp only [efx, efy, e1, e2, hash_add_256, grad_add_256]

/-- C9: the semi-sphere and cone initializers match their pointwise
reference values — `SemiSphere(256,256,128,128,100)` has height `100` at the
center, `0` at the corner, `√7500` at `(178,128)`; `Cone(100,100,50,50,40,80)`
has `80` at the apex, `40` halfway down the slope, and `0` at distance
exactly `r` (the boundary counts as inside). -/
theorem semiSphere_cone_scenarios :
    (generators.createSemiSphere 256 256 128 128 100).at' 128 128 = 100 ∧
    (generators.createSemiSphere 256 256 128 128 100).at' 0 0 = 0 ∧
    (generators.createSemiSphere 256 256 128 128 100).at' 178 128 = Real.sqrt 7500 ∧
    (generators.createCone 100 100 50 50 40 80).at' 50 50 = 80 ∧
    (generators.createCone 100 100 50 50 40 80).at' 70 50 = 40 ∧
    (generators.createCone 100 100 50 50 40 80).at' 90 50 = 0 := by
  refine ⟨?_, ?_, ?_, ?_, ?_, ?_⟩
  · rw [generators.createSemiSphere, Heightmap.at_ofFn 256 256 _ 128 128 (by norm_num)
      (by norm_num)]
    norm_num
    rw [show (10000 : ℝ) = 100 ^ 2 by norm_num, Real.sqrt_sq (by norm_num)]
  · rw [generators.createSemiSphere, Heightmap.at_ofFn 256 256 _ 0 0 (by norm_num)
      (by norm_num)]
    norm_num
  · rw [generators.createSemiSphere, Heightmap.at_ofFn 256 256 _ 178 128 (by norm_num)
      (by norm_num)]
    norm_num
  · rw [generators.createCone, Heightmap.at_ofFn 100 100 _ 50 50 (by norm_num) (by norm_num)]
    norm_num
  · rw [generators.createCone, Heightmap.at_ofFn 100 100 _ 70 50 (by norm_num) (by norm_num)]
    have h400 : Real.sqrt (400 : ℝ) = 20 := by
      rw [show (400 : ℝ) = 20 ^ 2 by norm_num, Real.sqrt_sq (by norm_num)]
    norm_num [h400]
  · rw [generators.createCone, Heightmap.at_ofFn 100 100 _ 90 50 (by norm_num) (by norm_num)]
    have h1600 : Real.sqrt (1600 : ℝ) = 40 := by
      rw [show (1600 : ℝ) = 40 ^ 2 by norm_num, Real.sqrt_sq (by norm_num)]
    norm_num [h1600]

/-! ## Validator helpers -/

lemma validateJobRanges_nil_iff (tf : ℤ) (jobs : List SimulationJob) :
    validateJobRanges tf jobs = [] ↔
      ∀ job ∈ jobs, 1 ≤ job.startFrame ∧ job.startFrame ≤ job.endFrame ∧ job.endFrame ≤ tf := by
  induction jobs with
  | nil => simp [validateJobRanges]
  | cons j t ih =>
    simp only [validateJobRanges, List.map_cons, List.flatten_cons, List.append_eq_nil,
      List.mem_cons] at *
    rw [ih]
    constructor
    · rintro ⟨hj, ht⟩ job hjob
      rcases hjob with rfl | hmem
      · refine ⟨?_, ?_, ?_⟩
        · by_contra hc
          have h3 := hj.1.1
          rw [if_pos (by omega)] at h3
          simp at h3
        · by_contra hc
          have h3 := hj.2
          rw [if_pos (by omega)] at h3
          simp at h3
        · by_contra hc
          have h3 := hj.1.2
          rw [if_pos (by omega)] at h3
          simp at h3
      · exact ht job hmem
    · intro h
      refine ⟨?_, fun job hm => h job (Or.inr hm)⟩
      have hj := h j (Or.inl rfl)
      rw [if_neg (by omega), if_neg (by omega), if_neg (by omega)]
      simp

lemma findUncoveredFrames_nil_iff (tf : ℤ) (jobs : List SimulationJob) :
    findUncoveredFrames tf jobs = [] ↔
      ∀ f : ℤ, 1 ≤ f → f ≤ tf →
        ∃ job ∈ jobs, job.enabled = true ∧ job.startFrame ≤ f ∧ f ≤ job.endFrame := by
  have hmem : ∀ f : ℤ, f ∈ (List.range tf.toNat).map (fun (i : ℕ) => (i : ℤ) + 1) ↔
      1 ≤ f ∧ f ≤ tf := by
    intro f
    simp only [List.mem_map, List.mem_range]
    constructor
    · rintro ⟨i, hi, he⟩
      have he2 : (i : ℤ) + 1 = f := he
      omega
    · rintro ⟨h1, h2⟩
      refine ⟨(f - 1).toNat, by omega, ?_⟩
      show ((f - 1).toNat : ℤ) + 1 = f
      omega
  rw [findUncoveredFrames, List.filter_eq_nil_iff]
  constructor
  · intro h f h1 h2
    have hh := h f ((hmem f).2 ⟨h1, h2⟩)
    simp only [Bool.not_eq_true', Bool.not_eq_false, List.any_eq_true, Bool.and_eq_true,
      decide_eq_true_eq] at hh
    obtain ⟨job, hm, ⟨he, hs⟩, hf2⟩ := hh
    exact ⟨job, hm, he, hs, hf2⟩
  · intro h f hf
    obtain ⟨h1, h2⟩ := (hmem f).1 hf
    obtain ⟨job, hm, he, hs, hf2⟩ := h f h1 h2
    simp only [Bool.not_eq_true', Bool.not_eq_false, List.any_eq_true, Bool.and_eq_true,
      decide_eq_true_eq]
    exact ⟨job, hm, ⟨he, hs⟩, hf2⟩

lemma validate_fields (config : PipelineConfig) :
    ((validate config).isValid =
      ((validate config).errors.isEmpty && (validate config).uncoveredFrames.isEmpty)) ∧
    ((validate config).errors = [] ↔
      validateJobRanges config.totalFrames config.jobs = [] ∧
      findUncoveredFrames config.totalFrames config.jobs = []) ∧
    ((validate config).uncoveredFrames = [] ↔
      (validateJobRanges config.totalFrames config.jobs ≠ [] ∨
        findUncoveredFrames config.totalFrames config.jobs = [])) := by
  by_cases h1 : validateJobRanges config.totalFrames config.jobs = []
  · by_cases h2 : findUncoveredFrames config.totalFrames config.jobs = []
    · simp [validate, h1, h2]
    · simp [validate, h1, h2]
  · simp [validate, h1]

/-- C4: the validator's verdict is sound and its checks are ordered:
`isValid` holds exactly when both the error list and the uncovered-frames
list are empty; any range violation yields a non-empty error list and
suppresses the coverage computation (`uncoveredFrames` stays empty); and a
valid verdict guarantees full coverage of `[1, totalFrames]` by enabled jobs
and `1 ≤ startFrame ≤ endFrame ≤ totalFrames` for every job. -/
theorem validator_sound (config : PipelineConfig) :
    ((validate config).isValid = true ↔
      (validate config).errors = [] ∧ (validate config).uncoveredFrames = []) ∧
    (validateJobRanges config.totalFrames config.jobs ≠ [] →
      (validate config).errors ≠ [] ∧ (validate config).uncoveredFrames = []) ∧
    ((validate config).isValid = true →
      (∀ f : ℤ, 1 ≤ f → f ≤ config.totalFrames →
        ∃ job ∈ config.jobs, job.enabled = true ∧ job.startFrame ≤ f ∧ f ≤ job.endFrame) ∧
      ∀ job ∈ config.jobs,
        1 ≤ job.startFrame ∧ job.startFrame ≤ job.endFrame ∧
          job.endFrame ≤ config.totalFrames) := by
  obtain ⟨hv, he, hu⟩ := validate_fields config
  have hvalid : (validate config).isValid = true ↔
      (validate config).errors = [] ∧ (validate config).uncoveredFrames = [] := by
    rw [hv]
    simp [List.isEmpty_iff]
  refine ⟨hvalid, ?_, ?_⟩
  · intro hr
    constructor
    · intro hc
      exact hr (he.1 hc).1
    · exact hu.2 (Or.inl hr)
  · intro hva
    obtain ⟨herr, _⟩ := hvalid.1 hva
    obtain ⟨hre, hcov⟩ := he.1 herr
    exact ⟨(findUncoveredFrames_nil_iff _ _).1 hcov,
      fun job hm => (validateJobRanges_nil_iff _ _).1 hre job hm⟩

/-- Jobs and configuration for the C4 witness: frames 1-2 and 2-3 cover
`[1, 3]`. -/
def c4Job1 : SimulationJob := ⟨"a", "A", 1, 2, .thermal defaultThermalConfig, true⟩

def c4Job2 : SimulationJob := ⟨"b", "B", 2, 3, .hydraulic defaultHydraulicConfig, true⟩

def c4Config : PipelineConfig := ⟨3, [c4Job1, c4Job2]⟩

/-- Witness for C4: the two-job configuration validates, hence its first
job's range is well-formed. -/
theorem validator_sound_witness :
    1 ≤ c4Job1.startFrame ∧ c4Job1.startFrame ≤ c4Job1.endFrame ∧
      c4Job1.endFrame ≤ c4Config.totalFrames :=
  ((validator_sound c4Config).2.2 (by decide)).2 c4Job1
    (show c4Job1 ∈ [c4Job1, c4Job2] from List.mem_cons_self _ _)

/-- C8: overlap detection is symmetric and duplicate-free.  The warning list
is exactly one warning per index pair `(i, j)`, `i < j`, of enabled jobs with
intersecting frame ranges; the emitted pair list is duplicate-free, so each
unordered pair contributes exactly one warning naming both jobs and the
inclusive overlap window; the intersection condition itself is symmetric,
and a pair is emitted iff the two enabled ranges share a concrete frame;
disabled jobs produce no pairs. -/
theorem overlap_warnings_exact (jobs : List SimulationJob) :
    checkOverlaps jobs = (overlapPairs jobs).map (fun ij => warnOf jobs ij.1 ij.2) ∧
    (∀ i j : ℕ, (i, j) ∈ overlapPairs jobs ↔
      i < j ∧ j < jobs.length ∧ (jobAt jobs i).enabled = true ∧
        (jobAt jobs j).enabled = true ∧
        ∃ f : ℤ, (jobAt jobs i).startFrame ≤ f ∧ f ≤ (jobAt jobs i).endFrame ∧
          (jobAt jobs j).startFrame ≤ f ∧ f ≤ (jobAt jobs j).endFrame) ∧
    (overlapPairs jobs).Nodup ∧
    (∀ i j : ℕ, overlapCond jobs i j = overlapCond jobs j i) := by
  refine ⟨?_, ?_, ?_, ?_⟩
  · rw [checkOverlaps, overlapPairs, List.map_flatten, List.map_map]
    refine congrArg List.flatten (List.map_congr_left fun i _ => ?_)
    rw [Function.comp_apply, List.map_map]
    rfl
  · intro i j
    rw [overlapPairs, List.mem_flatten]
    constructor
    · rintro ⟨l, hl, hmem⟩
      rw [List.mem_map] at hl
      obtain ⟨i', hi', rfl⟩ := hl
      rw [List.mem_range] at hi'
      rw [List.mem_map] at hmem
      obtain ⟨j', hj', he⟩ := hmem
      rw [List.mem_filter, List.mem_range] at hj'
      obtain ⟨hj'r, hcond⟩ := hj'
      simp only [Prod.mk.injEq] at he
      obtain ⟨rfl, rfl⟩ := he
      simp only [Bool.and_eq_true, decide_eq_true_eq, overlapCond] at hcond
      obtain ⟨hij, ⟨he1, he2⟩, hint⟩ := hcond
      exact ⟨hij, hj'r, he1, he2,
        ⟨max (jobAt jobs i').startFrame (jobAt jobs j').startFrame, by omega, by omega,
          by omega, by omega⟩⟩
    · rintro ⟨hij, hj, he1, he2, f, hf1, hf2, hf3, hf4⟩
      refine ⟨((List.range jobs.length).filter fun j' =>
          decide (i < j') && overlapCond jobs i j').map (fun j' => (i, j')),
        List.mem_map.2 ⟨i, List.mem_range.2 (by omega), rfl⟩,
        List.mem_map.2 ⟨j, List.mem_filter.2 ⟨List.mem_range.2 hj, ?_⟩, rfl⟩⟩
      simp only [Bool.and_eq_true, decide_eq_true_eq, overlapCond]
      exact ⟨hij, ⟨he1, he2⟩, by omega⟩
  · rw [overlapPairs]
    rw [List.nodup_flatten]
    constructor
    · intro l hl
      simp only [List.mem_map] at hl
      obtain ⟨i, _, rfl⟩ := hl
      exact ((List.nodup_range _).filter _).map
        (fun a b hab => by simpa using congrArg Prod.snd hab)
    · have hp : (List.range jobs.length).Pairwise (· ≠ ·) :=
        (List.nodup_range _)
      refine (List.pairwise_map.2 ?_)
      refine hp.imp_of_mem ?_
      intro i i' _ _ hne
      intro x hx hx'
      simp only [List.mem_map, List.mem_filter] at hx hx'
      obtain ⟨j, _, rfl⟩ := hx
      obtain ⟨j', _, he⟩ := hx'
      exact hne (congrArg Prod.fst he).symm
  · intro i j
    simp only [overlapCond]
    rw [max_comm, min_comm, Bool.and_comm ((jobAt jobs i).enabled)]

/-! ## C7: zero particles, Scenario 1 -/

/-- `erode` with zero particles runs no droplet: the particle loop body never
executes. -/
lemma erode_zero (p : HydraulicErosionParams) (H : Heightmap) (draws : ℕ → ℝ × ℝ) :
    erode p H 0 draws = H := rfl

/-- The single hydraulic job of Scenario 1: frames 1-5, `numParticles = 0`. -/
def scenario1Job : SimulationJob :=
  ⟨"job-1", "Hydraulic", 1, 5, .hydraulic { defaultHydraulicConfig with numParticles := 0 },
    true⟩

/-- The Scenario 1 pipeline: `totalFrames = 5`, one enabled hydraulic job
covering every frame. -/
def scenario1Config : PipelineConfig := ⟨5, [scenario1Job]⟩

/-- C7: eroding with zero particles leaves the heightmap bitwise unchanged,
for any parameters and any entropy; consequently, executing Scenario 1 on a
flat map at elevation 5 fires the five frame callbacks in order, each
observing a heightmap bitwise equal to the flat map, and leaves the terrain
equal to the flat map. -/
theorem erode_zero_and_scenario1 :
    (∀ (p : HydraulicErosionParams) (H : Heightmap) (draws : ℕ → ℝ × ℝ),
      erode p H 0 draws = H) ∧
    (∀ (w h : ℕ) (entropy : ℕ → ℕ → ℝ × ℝ),
      execute scenario1Config (generators.createFlat w h 5) entropy =
        (generators.createFlat w h 5,
          [(1, generators.createFlat w h 5), (2, generators.createFlat w h 5),
            (3, generators.createFlat w h 5), (4, generators.createFlat w h 5),
            (5, generators.createFlat w h 5)])) := by
  refine ⟨fun p H draws => erode_zero p H draws, fun w h entropy => ?_⟩
  have happly : ∀ (t : Heightmap) (k : ℕ),
      applyJob scenario1Job t (entropy k) = t := by
    intro t k
    rw [applyJob]
    exact erode_zero _ _ _
  have hsel : ∀ f : ℤ, 1 ≤ f → f ≤ 5 →
      getJobsForFrame f scenario1Config.jobs = [scenario1Job] := by
    intro f h1 h2
    rw [scenario1Config, getJobsForFrame]
    rw [List.filter_cons_of_pos]
    · rfl
    · simp only [scenario1Job, Bool.and_eq_true, decide_eq_true_eq]
      exact ⟨⟨trivial, h1⟩, h2⟩
  rw [execute]
  have hframes : ((List.range scenario1Config.totalFrames.toNat).map
      fun (i : ℕ) => (i : ℤ) + 1) = [1, 2, 3, 4, 5] := by
    rfl
  rw [hframes]
  simp only [List.foldl_cons, List.foldl_nil, executeFrame]
  rw [hsel 1 (by norm_num) (by norm_num), hsel 2 (by norm_num) (by norm_num),
    hsel 3 (by norm_num) (by norm_num), hsel 4 (by norm_num) (by norm_num),
    hsel 5 (by norm_num) (by norm_num)]
  simp only [List.foldl_cons, List.foldl_nil, happly]
  simp

/-! ## C1: ErosionSpec → simulator parameter mapping -/

/-- The simulator parameters a hydraulic job built from the config object
`obj` runs with: `parseHydraulicConfig` followed by `applyJob`'s conversion
to `HydraulicErosionParams`. -/
noncomputable def hydroParamsOf (obj : List (String × JVal)) : HydraulicErosionParams :=
  applyJobParams (parseHydraulicConfig obj)

/-- C1 (amended): the parameters recognized by the parser and assigned by
`applyJob` (`numParticles`, `maxLifetime`→`maxIterations`, `inertia`,
`sedimentCapacity`→`sedimentCapacityFactor`, `minSlope`→`minSedimentCapacity`,
`erosionRate`→`erodeSpeed`, `depositionRate`→`depositSpeed`,
`evaporationRate`→`evaporateSpeed`, `gravity`) are carried field-for-field
when present and defaulted when absent, and the hydraulic job invokes the
population driver with the parsed `numParticles`; but `erosionRadius` and
`maxDropletSpeed` are never read from the config object — the constructed
simulator always runs with the defaults `1` and `10.0`. -/
theorem applyJob_field_mapping (obj : List (String × JVal)) :
    (∀ v, jlookup obj "maxLifetime" = some v →
      (hydroParamsOf obj).maxIterations = v.toIntVal) ∧
    (jlookup obj "maxLifetime" = none → (hydroParamsOf obj).maxIterations = 30) ∧
    (∀ v, jlookup obj "inertia" = some v →
      (hydroParamsOf obj).inertia = (v.toNumVal : ℝ)) ∧
    (jlookup obj "inertia" = none → (hydroParamsOf obj).inertia = 0.05) ∧
    (∀ v, jlookup obj "sedimentCapacity" = some v →
      (hydroParamsOf obj).sedimentCapacityFactor = (v.toNumVal : ℝ)) ∧
    (jlookup obj "sedimentCapacity" = none →
      (hydroParamsOf obj).sedimentCapacityFactor = 4) ∧
    (∀ v, jlookup obj "minSlope" = some v →
      (hydroParamsOf obj).minSedimentCapacity = (v.toNumVal : ℝ)) ∧
    (jlookup obj "minSlope" = none → (hydroParamsOf obj).minSedimentCapacity = 0.01) ∧
    (∀ v, jlookup obj "erosionRate" = some v →
      (hydroParamsOf obj).erodeSpeed = (v.toNumVal : ℝ)) ∧
    (jlookup obj "erosionRate" = none → (hydroParamsOf obj).erodeSpeed = 0.3) ∧
    (∀ v, jlookup obj "depositionRate" = some v →
      (hydroParamsOf obj).depositSpeed = (v.toNumVal : ℝ)) ∧
    (jlookup obj "depositionRate" = none → (hydroParamsOf obj).depositSpeed = 0.3) ∧
    (∀ v, jlookup obj "evaporationRate" = some v →
      (hydroParamsOf obj).evaporateSpeed = (v.toNumVal : ℝ)) ∧
    (jlookup obj "evaporationRate" = none → (hydroParamsOf obj).evaporateSpeed = 0.01) ∧
    (∀ v, jlookup obj "gravity" = some v →
      (hydroParamsOf obj).gravity = (v.toNumVal : ℝ)) ∧
    (jlookup obj "gravity" = none → (hydroParamsOf obj).gravity = 4) ∧
    (∀ v, jlookup obj "numParticles" = some v →
      (parseHydraulicConfig obj).numParticles = v.toIntVal) ∧
    (jlookup obj "numParticles" = none → (parseHydraulicConfig obj).numParticles = 50000) ∧
    (hydroParamsOf obj).maxDropletSpeed = 10 ∧
    (hydroParamsOf obj).erosionRadius = 1 ∧
    (∀ (H : Heightmap) (draws : ℕ → ℝ × ℝ) (jid jname : String) (s e : ℤ) (en : Bool),
      applyJob ⟨jid, jname, s, e, .hydraulic (parseHydraulicConfig obj), en⟩ H draws =
        erode (hydroParamsOf obj) H (parseHydraulicConfig obj).numParticles draws) := by
  refine ⟨?_, ?_, ?_, ?_, ?_, ?_, ?_, ?_, ?_, ?_, ?_, ?_, ?_, ?_, ?_, ?_, ?_, ?_, ?_, ?_, ?_⟩
  · intro v hv
    simp [hydroParamsOf, applyJobParams, parseHydraulicConfig, defaultParams, hv]
  · intro hv
    simp [hydroParamsOf, applyJobParams, parseHydraulicConfig, defaultParams,
      defaultHydraulicConfig, hv]
  · intro v hv
    simp [hydroParamsOf, applyJobParams, parseHydraulicConfig, defaultParams, hv]
  · intro hv
    simp [hydroParamsOf, applyJobParams, parseHydraulicConfig, defaultParams,
      defaultHydraulicConfig, hv] <;> norm_num
  · intro v hv
    simp [hydroParamsOf, applyJobParams, parseHydraulicConfig, defaultParams, hv]
  · intro hv
    simp [hydroParamsOf, applyJobParams, parseHydraulicConfig, defaultParams,
      defaultHydraulicConfig, hv] <;> norm_num
  · intro v hv
    simp [hydroParamsOf, applyJobParams, parseHydraulicConfig, defaultParams, hv]
  · intro hv
    simp [hydroParamsOf, applyJobParams, parseHydraulicConfig, defaultParams,
      defaultHydraulicConfig, hv] <;> norm_num
  · intro v hv
    simp [hydroParamsOf, applyJobParams, parseHydraulicConfig, defaultParams, hv]
  · intro hv
    simp [hydroParamsOf, applyJobParams, parseHydraulicConfig, defaultParams,
      defaultHydraulicConfig, hv] <;> norm_num
  · intro v hv
    simp [hydroParamsOf, applyJobParams, parseHydraulicConfig, defaultParams, hv]
  · intro hv
    simp [hydroParamsOf, applyJobParams, parseHydraulicConfig, defaultParams,
      defaultHydraulicConfig, hv] <;> norm_num
  · intro v hv
    simp [hydroParamsOf, applyJobParams, parseHydraulicConfig, defaultParams, hv]
  · intro hv
    simp [hydroParamsOf, applyJobParams, parseHydraulicConfig, defaultParams,
      defaultHydraulicConfig, hv] <;> norm_num
  · intro v hv
    simp [hydroParamsOf, applyJobParams, parseHydraulicConfig, defaultParams, hv]
  · intro hv
    simp [hydroParamsOf, applyJobParams, parseHydraulicConfig, defaultParams,
      defaultHydraulicConfig, hv] <;> norm_num
  · intro v hv
    simp [parseHydraulicConfig, hv]
  · intro hv
    simp [parseHydraulicConfig, defaultHydraulicConfig, hv]
  · rfl
  · rfl
  · intro H draws jid jname s e en
    rfl

/-- The C1 counterexample config object: it supplies `erosionRadius` and
`maxDropletSpeed`. -/
def c1badObj : List (String × JVal) :=
  [("erosionRadius", .jint 5), ("maxDropletSpeed", .jnum 3)]

/-- C1 counterexample: a hydraulic config object that sets
`erosionRadius: 5` and `maxDropletSpeed: 3` still yields a simulator with
`erosionRadius = 1` and `maxDropletSpeed = 10` — those keys are not carried
(the parser never reads them), refuting the field-for-field claim for the
listed parameters `erosionRadius` and `maxDropletSpeed`. -/
theorem applyJob_ignores_radius_and_speed :
    jlookup c1badObj "erosionRadius" = some (.jint 5) ∧
    (hydroParamsOf c1badObj).erosionRadius = 1 ∧ ((1 : ℤ) ≠ 5) ∧
    jlookup c1badObj "maxDropletSpeed" = some (.jnum 3) ∧
    (hydroParamsOf c1badObj).maxDropletSpeed = 10 ∧ ((10 : ℝ) ≠ 3) := by
  refine ⟨by decide, rfl, by decide, by decide, rfl, by norm_num⟩

/-- The C1 witness config object: it supplies `inertia`. -/
def c1goodObj : List (String × JVal) := [("inertia", .jnum 7)]

/-- Witness for C1 (amended): a supplied `inertia: 0.5` is carried into the
simulator's inertia parameter. -/
theorem applyJob_field_mapping_witness :
    (hydroParamsOf c1goodObj).inertia = ((JVal.jnum 7).toNumVal : ℝ) :=
  (applyJob_field_mapping c1goodObj).2.2.1 (JVal.jnum 7) rfl

/-! ## C2: determinism of the population driver -/

lemma simulate_foldl_congr (p : HydraulicErosionParams) (draws1 draws2 : ℕ → ℝ × ℝ) :
    ∀ (l : List ℕ) (H : Heightmap), (∀ i ∈ l, draws1 i = draws2 i) →
      l.foldl (fun acc i => simulateParticle p acc (draws1 i).1 (draws1 i).2) H =
      l.foldl (fun acc i => simulateParticle p acc (draws2 i).1 (draws2 i).2) H := by
  intro l
  induction l with
  | nil => intro H _; rfl
  | cons a t ih =>
    intro H h
    simp only [List.foldl_cons]
    rw [h a (List.mem_cons_self _ _), ih _ fun i hi => h i (List.mem_cons_of_mem _ hi)]

/-- C2: the erosion driver is a function of the heightmap, the parameters,
the particle count and the consumed entropy draws — two runs that consume
identical start-position draws produce bitwise-identical heightmaps.  (The
C++ `erode` has no seed parameter: its generator is seeded from
`std::random_device` on every call, so the draws cannot be fixed through the
API; see the erode model's documentation.) -/
theorem erode_deterministic_given_draws (p : HydraulicErosionParams) (H : Heightmap)
    (n : ℤ) (draws1 draws2 : ℕ → ℝ × ℝ) (h : ∀ i < n.toNat, draws1 i = draws2 i) :
    erode p H n draws1 = erode p H n draws2 := by
  rw [erode, erode]
  exact simulate_foldl_congr p draws1 draws2 _ H fun i hi => h i (List.mem_range.1 hi)

/-- First entropy sequence for the C2 witness. -/
def c2draws1 : ℕ → ℝ × ℝ := fun i => ((i : ℝ), 0)

/-- Second entropy sequence for the C2 witness: agrees with the first on the
two consumed draws only. -/
def c2draws2 : ℕ → ℝ × ℝ := fun i => if i < 2 then ((i : ℝ), 0) else (99, 0)

/-- Witness for C2: two two-particle runs whose entropy sequences agree on
the consumed draws coincide. -/
theorem erode_deterministic_given_draws_witness :
    erode defaultParams (Heightmap.mk0 4 4) 2 c2draws1 =
      erode defaultParams (Heightmap.mk0 4 4) 2 c2draws2 :=
  erode_deterministic_given_draws defaultParams (Heightmap.mk0 4 4) 2 c2draws1 c2draws2
    (by
      intro i hi
      have hi2 : i < 2 := hi
      simp [c2draws1, c2draws2, hi2])

/-! ## Numeric helpers for the droplet-step evaluations -/

lemma rtrunc_intCast (n : ℤ) : rtrunc (n : ℝ) = n := by
  unfold rtrunc
  split_ifs <;> simp

lemma sqrt_two_le_two : Real.sqrt 2 ≤ 2 := by
  nlinarith [Real.sq_sqrt (show (0 : ℝ) ≤ 2 by norm_num), Real.sqrt_nonneg 2]

lemma sqrt_four : Real.sqrt 4 = 2 := by
  rw [show (4 : ℝ) = 2 ^ 2 by norm_num, Real.sqrt_sq (by norm_num)]

lemma not_sqrt_five_le_two : ¬Real.sqrt 5 ≤ 2 := by
  intro h
  have h2 : (5 : ℝ) ≤ 4 := by
    nlinarith [Real.sq_sqrt (show (0 : ℝ) ≤ 5 by norm_num), Real.sqrt_nonneg 5]
  norm_num at h2

lemma not_sqrt_eight_le_two : ¬Real.sqrt 8 ≤ 2 := by
  intro h
  have h2 : (8 : ℝ) ≤ 4 := by
    nlinarith [Real.sq_sqrt (show (0 : ℝ) ≤ 8 by norm_num), Real.sqrt_nonneg 8]
  norm_num at h2

lemma totalWeightC3_pos : (0 : ℝ) < 7 - 2 * Real.sqrt 2 := by
  nlinarith [sqrt_two_le_two]

/-! list update lemmas for the four-corner writes -/

lemma getD_set_eq (l : List ℝ) (i : ℕ) (v : ℝ) (h : i < l.length) :
    (l.set i v).getD i 0 = v := by
  induction l generalizing i with
  | nil => simp at h
  | cons a t ih =>
    cases i with
    | zero => rfl
    | succ i => exact ih i (by simpa using h)

lemma getD_set_ne (l : List ℝ) (i j : ℕ) (v : ℝ) (h : i ≠ j) :
    (l.set i v).getD j 0 = l.getD j 0 := by
  induction l generalizing i j with
  | nil => simp
  | cons a t ih =>
    cases i with
    | zero =>
      cases j with
      | zero => exact absurd rfl h
      | succ j => rfl
    | succ i =>
      cases j with
      | zero => rfl
      | succ j => exact ih i j (by omega)

lemma Heightmap.at'_set_eq (H : Heightmap) (x y : ℕ) (v : ℝ)
    (h : y * H.width + x < H.data.length) :
    (H.set x y v).at' x y = v := getD_set_eq _ _ _ h

lemma Heightmap.at'_set_ne (H : Heightmap) (x y a b : ℕ) (v : ℝ)
    (h : y * H.width + x ≠ b * H.width + a) :
    (H.set x y v).at' a b = H.at' a b := getD_set_ne _ _ _ _ h

/-! ## Evaluation of the erosion branch of a droplet step

The two lemmas below unfold one iteration of `simulateParticle` along the
erosion branch, given the values of the samples, the gradient and the
normalized direction, for the radius ≥ 2 kernel path and for the radius ≤ 1
four-corner path respectively. -/

lemma simStep_erode_kernel (p : HydraulicErosionParams) (H : Heightmap) (d : Droplet)
    (gx gy cur dx0 dy0 L dx dy nh : ℝ)
    (hnb : ¬(rtrunc d.posX < 0 ∨ (H.width : ℤ) - 1 ≤ rtrunc d.posX ∨ rtrunc d.posY < 0 ∨
      (H.height : ℤ) - 1 ≤ rtrunc d.posY))
    (hcur : H.getHeightInterpolated d.posX d.posY = cur)
    (hg : H.getGradient d.posX d.posY = (gx, gy))
    (hdx0 : d.dirX * p.inertia - gx * (1 - p.inertia) = dx0)
    (hdy0 : d.dirY * p.inertia - gy * (1 - p.inertia) = dy0)
    (hL : Real.sqrt (dx0 * dx0 + dy0 * dy0) = L)
    (hLne : L ≠ 0)
    (hdx : dx0 / L = dx)
    (hdy : dy0 / L = dy)
    (hmv : ¬((dx = 0 ∧ dy = 0) ∨ d.posX + dx < 0 ∨ ((H.width - 1 : ℕ) : ℝ) ≤ d.posX + dx ∨
      d.posY + dy < 0 ∨ ((H.height - 1 : ℕ) : ℝ) ≤ d.posY + dy))
    (hnh : H.getHeightInterpolated (d.posX + dx) (d.posY + dy) = nh)
    (hbr : ¬(d.sediment > max (-(nh - cur) * d.speed * d.water * p.sedimentCapacityFactor)
      p.minSedimentCapacity ∨ nh - cur > 0))
    (hrad : 1 < p.erosionRadius) :
    simStep p H d = some
      (applyHeightChange p H d.posX d.posY
          (-(min ((max (-(nh - cur) * d.speed * d.water * p.sedimentCapacityFactor)
              p.minSedimentCapacity - d.sediment) * p.erodeSpeed) (-(nh - cur)))),
        ⟨d.posX + dx, d.posY + dy, dx, dy,
          min (Real.sqrt (max 0 (d.speed * d.speed - (nh - cur) * p.gravity)))
            p.maxDropletSpeed,
          d.water * (1 - p.evaporateSpeed),
          d.sediment + min ((max (-(nh - cur) * d.speed * d.water * p.sedimentCapacityFactor)
              p.minSedimentCapacity - d.sediment) * p.erodeSpeed) (-(nh - cur))⟩) := by
  simp only [simStep]
  rw [if_neg hnb]
  rw [hcur, hg]
  simp only [hdx0, hdy0, hL]
  simp only [if_pos hLne]
  simp only [hdx, hdy]
  rw [if_neg hmv, hnh]
  rw [if_neg hbr]
  rw [if_pos hrad]

lemma simStep_erode_bilinear (p : HydraulicErosionParams) (H : Heightmap) (d : Droplet)
    (gx gy cur dx0 dy0 L dx dy nh : ℝ)
    (hnb : ¬(rtrunc d.posX < 0 ∨ (H.width : ℤ) - 1 ≤ rtrunc d.posX ∨ rtrunc d.posY < 0 ∨
      (H.height : ℤ) - 1 ≤ rtrunc d.posY))
    (hcur : H.getHeightInterpolated d.posX d.posY = cur)
    (hg : H.getGradient d.posX d.posY = (gx, gy))
    (hdx0 : d.dirX * p.inertia - gx * (1 - p.inertia) = dx0)
    (hdy0 : d.dirY * p.inertia - gy * (1 - p.inertia) = dy0)
    (hL : Real.sqrt (dx0 * dx0 + dy0 * dy0) = L)
    (hLne : L ≠ 0)
    (hdx : dx0 / L = dx)
    (hdy : dy0 / L = dy)
    (hmv : ¬((dx = 0 ∧ dy = 0) ∨ d.posX + dx < 0 ∨ ((H.width - 1 : ℕ) : ℝ) ≤ d.posX + dx ∨
      d.posY + dy < 0 ∨ ((H.height - 1 : ℕ) : ℝ) ≤ d.posY + dy))
    (hnh : H.getHeightInterpolated (d.posX + dx) (d.posY + dy) = nh)
    (hbr : ¬(d.sediment > max (-(nh - cur) * d.speed * d.water * p.sedimentCapacityFactor)
      p.minSedimentCapacity ∨ nh - cur > 0))
    (hrad : ¬1 < p.erosionRadius)
    (hob : 0 ≤ rtrunc d.posX ∧ rtrunc d.posX < (H.width : ℤ) - 1 ∧ 0 ≤ rtrunc d.posY ∧
      rtrunc d.posY < (H.height : ℤ) - 1) :
    simStep p H d = some
      (fourCornerAdd H (rtrunc d.posX).toNat (rtrunc d.posY).toNat
          (d.posX - ((rtrunc d.posX : ℤ) : ℝ)) (d.posY - ((rtrunc d.posY : ℤ) : ℝ))
          (-(min ((max (-(nh - cur) * d.speed * d.water * p.sedimentCapacityFactor)
              p.minSedimentCapacity - d.sediment) * p.erodeSpeed) (-(nh - cur)))),
        ⟨d.posX + dx, d.posY + dy, dx, dy,
          min (Real.sqrt (max 0 (d.speed * d.speed - (nh - cur) * p.gravity)))
            p.maxDropletSpeed,
          d.water * (1 - p.evaporateSpeed),
          d.sediment + min ((max (-(nh - cur) * d.speed * d.water * p.sedimentCapacityFactor)
              p.minSedimentCapacity - d.sediment) * p.erodeSpeed) (-(nh - cur))⟩) := by
  simp only [simStep]
  rw [if_neg hnb]
  rw [hcur, hg]
  simp only [hdx0, hdy0, hL]
  simp only [if_pos hLne]
  simp only [hdx, hdy]
  rw [if_neg hmv, hnh]
  rw [if_neg hbr]
  rw [if_neg hrad, if_pos hob]

lemma Heightmap.at'_mk (w h : ℕ) (data : List ℝ) (hl : data.length = w * h) (a b : ℕ) :
    (Heightmap.mk w h data hl).at' a b = data.getD (b * w + a) 0 := rfl

/-- The per-cell kernel update never turns a nonnegative cell negative: the
clamp bounds the decrement by the cell's height. -/
lemma kernelCellUpdate_nonneg (R cX cY : ℤ) (W a : ℝ) (cx cy : ℕ) (v : ℝ) (hv : 0 ≤ v) :
    0 ≤ kernelCellUpdate R cX cY W a cx cy v := by
  simp only [kernelCellUpdate]
  split_ifs with h1 h2
  · have hmax := le_max_right (kernelWeight R ((cx : ℤ) - cX) ((cy : ℤ) - cY) / W * a) (-v)
    linarith
  · linarith
  · exact hv

/-! ## C10: clamping invariants of the write paths -/

/-- Parameters for the C10 four-corner dig: `erosionRadius = 1`,
`inertia = 0`, `erodeSpeed = 1/2`, `maxIterations = 1`, the rest as in the
defaults. -/
noncomputable def pC10 : HydraulicErosionParams :=
  ⟨1, 0, 4, 1/100, 1/2, 3/10, 1/100, 4, 10, 1⟩

/-- The 5×5 heightmap of the C10 dig: every cell `1/2` except `(3, 2) = -1`
(heights may be negative; §3 of the spec). -/
noncomputable def hC10data : List ℝ :=
  [1/2, 1/2, 1/2, 1/2, 1/2,
   1/2, 1/2, 1/2, 1/2, 1/2,
   1/2, 1/2, 1/2, -1, 1/2,
   1/2, 1/2, 1/2, 1/2, 1/2,
   1/2, 1/2, 1/2, 1/2, 1/2]

noncomputable def HC10 : Heightmap := ⟨5, 5, hC10data, by norm_num [hC10data]⟩

/-- The C10 droplet: starts at the grid node `(2, 2)` with the
`simulateParticle` initial state. -/
noncomputable def dC10 : Droplet := ⟨2, 2, 0, 0, 1, 1, 0⟩

/-- C10: `applyHeightChange` preserves cell nonnegativity in both branches —
each written cell's decrement is clamped to the cell's current height, so a
nonnegative cell stays nonnegative for any negative amount; when the kernel's
total weight is ≤ 10⁻⁴ the call leaves the heightmap entirely unchanged; by
contrast the four-corner bilinear erosion path of `simulateParticle`
(`erosionRadius = 1`) applies no clamp: a concrete droplet step digs cell
`(2, 2)` from height `1/2` to `-1 < 0`. -/
theorem applyHeightChange_clamp_invariants :
    (∀ (p : HydraulicErosionParams) (H : Heightmap) (px py amount : ℝ) (cx cy : ℕ),
      0 ≤ H.at' cx cy → amount < 0 →
      0 ≤ (applyHeightChange p H px py amount).at' cx cy) ∧
    (∀ (p : HydraulicErosionParams) (H : Heightmap) (px py amount : ℝ),
      1 < p.erosionRadius →
      totalWeight p.erosionRadius H (rtrunc px) (rtrunc py) ≤ 1/10000 →
      applyHeightChange p H px py amount = H) ∧
    ((simStep pC10 HC10 dC10).map fun r => r.1.at' 2 2) = some (-1) := by
  refine ⟨?_, ?_, ?_⟩
  · intro p H px py amount cx cy hv ham
    simp only [applyHeightChange]
    rw [if_pos ham]
    split_ifs with h1 h2 h3
    · -- single-cell branch, in bounds, amount < 0: clamped write
      simp only [Heightmap.set, Heightmap.at'] at hv ⊢
      by_cases hij : (rtrunc py).toNat * H.width + (rtrunc px).toNat = cy * H.width + cx
      · rw [← hij]
        by_cases hlen : (rtrunc py).toNat * H.width + (rtrunc px).toNat < H.data.length
        · rw [getD_set_eq _ _ _ hlen]
          rw [← hij] at hv
          have := le_max_right amount (-(H.data.getD
            ((rtrunc py).toNat * H.width + (rtrunc px).toNat) 0))
          linarith
        · rw [List.set_eq_of_length_le (by omega)]
          rw [← hij] at hv
          exact hv
      · rw [getD_set_ne _ _ _ _ hij]
        exact hv
    · exact hv
    · -- kernel branch: the weighted write clamps per cell
      simp only [Heightmap.at'_mk]
      rw [writeIdx_getD]
      split_ifs with hlen
      · simp only [Nat.zero_add]
        exact kernelCellUpdate_nonneg _ _ _ _ _ _ _ _ hv
      · exact le_refl 0
    · exact hv
  · intro p H px py amount hrad hW
    simp only [applyHeightChange]
    rw [if_neg (by omega), if_neg (not_lt.2 hW)]
  · -- the four-corner erosion path digs below zero
    have htrX : rtrunc dC10.posX = 2 := by
      rw [show dC10.posX = ((2 : ℤ) : ℝ) by norm_num [dC10]]
      exact rtrunc_intCast 2
    have htrY : rtrunc dC10.posY = 2 := by
      rw [show dC10.posY = ((2 : ℤ) : ℝ) by norm_num [dC10]]
      exact rtrunc_intCast 2
    have hcur : HC10.getHeightInterpolated dC10.posX dC10.posY = 1/2 := by
      show HC10.getHeightInterpolated (2 : ℝ) (2 : ℝ) = 1/2
      rw [show (2 : ℝ) = ((2 : ℕ) : ℝ) by norm_num]
      rw [getHeightInterpolated_nat HC10 2 2 (by norm_num [HC10]) (by norm_num [HC10])]
      norm_num [HC10, Heightmap.at', hC10data]
    have hg : HC10.getGradient dC10.posX dC10.posY = (-(3/4), 0) := by
      show HC10.getGradient (2 : ℝ) (2 : ℝ) = (-(3/4), 0)
      rw [show (2 : ℝ) = ((2 : ℕ) : ℝ) by norm_num]
      rw [getGradient_nat HC10 2 2 (by norm_num [HC10]) (by norm_num [HC10])]
      norm_num [HC10, Heightmap.at', hC10data]
    have hnh : HC10.getHeightInterpolated (dC10.posX + 1) (dC10.posY + 0) = -1 := by
      show HC10.getHeightInterpolated (2 + 1 : ℝ) (2 + 0 : ℝ) = -1
      rw [show (2 + 1 : ℝ) = ((3 : ℕ) : ℝ) by norm_num,
        show (2 + 0 : ℝ) = ((2 : ℕ) : ℝ) by norm_num]
      rw [getHeightInterpolated_nat HC10 3 2 (by norm_num [HC10]) (by norm_num [HC10])]
      norm_num [HC10, Heightmap.at', hC10data]
    have hstep := simStep_erode_bilinear pC10 HC10 dC10 (-(3/4)) 0 (1/2) (3/4) 0 (3/4) 1 0
      (-1)
      (by
        rw [htrX, htrY]
        show ¬((2 : ℤ) < 0 ∨ (↑HC10.width : ℤ) - 1 ≤ 2 ∨ (2 : ℤ) < 0 ∨
          (↑HC10.height : ℤ) - 1 ≤ 2)
        norm_num [HC10])
      hcur hg
      (by show (0 : ℝ) * pC10.inertia - -(3/4) * (1 - pC10.inertia) = 3/4
          norm_num [pC10])
      (by show (0 : ℝ) * pC10.inertia - 0 * (1 - pC10.inertia) = 0
          norm_num [pC10])
      (by
        rw [show (3/4 : ℝ) * (3/4) + 0 * 0 = (3/4) ^ 2 by ring]
        exact Real.sqrt_sq (by norm_num))
      (by norm_num)
      (by norm_num)
      (by norm_num)
      (by
        show ¬(((1 : ℝ) = 0 ∧ (0 : ℝ) = 0) ∨ (2 : ℝ) + 1 < 0 ∨
          ((HC10.width - 1 : ℕ) : ℝ) ≤ 2 + 1 ∨ (2 : ℝ) + 0 < 0 ∨
          ((HC10.height - 1 : ℕ) : ℝ) ≤ 2 + 0)
        norm_num [HC10])
      hnh
      (by
        show ¬((0 : ℝ) > max (-(-1 - 1/2) * dC10.speed * dC10.water *
          pC10.sedimentCapacityFactor) pC10.minSedimentCapacity ∨ (-1 : ℝ) - 1/2 > 0)
        push_neg
        refine ⟨le_trans (by norm_num [pC10]) (le_max_right _ _), by norm_num⟩)
      (by show ¬(1 : ℤ) < pC10.erosionRadius
          norm_num [pC10])
      (by
        rw [htrX, htrY]
        show (0 : ℤ) ≤ 2 ∧ (2 : ℤ) < (↑HC10.width : ℤ) - 1 ∧ (0 : ℤ) ≤ 2 ∧
          (2 : ℤ) < (↑HC10.height : ℤ) - 1
        norm_num [HC10])
    rw [hstep, Option.map_some']
    congr 1
    have htr2 : rtrunc (2 : ℝ) = 2 := by
      rw [show (2 : ℝ) = ((2 : ℤ) : ℝ) by norm_num]
      exact rtrunc_intCast 2
    simp only [dC10, pC10, htr2, Int.toNat_ofNat]
    simp only [show (2 : ℤ).toNat = 2 from rfl]
    rw [fourCornerAdd]
    rw [Heightmap.at'_set_ne _ _ _ _ _ _ (by decide)]
    rw [Heightmap.at'_set_ne _ _ _ _ _ _ (by decide)]
    rw [Heightmap.at'_set_ne _ _ _ _ _ _ (by decide)]
    rw [Heightmap.at'_set_eq _ _ _ _ (by
      simp only [Heightmap.set, HC10, hC10data, List.length_set]
      decide)]
    norm_num [HC10, Heightmap.at', hC10data, max_def, min_def]

/-- Witness for C10: the kernel clamp keeps a nonnegative cell nonnegative
at a concrete input. -/
theorem applyHeightChange_clamp_invariants_witness :
    0 ≤ (applyHeightChange pC10 HC10 1 1 (-5)).at' 1 1 :=
  applyHeightChange_clamp_invariants.1 pC10 HC10 1 1 (-5) 1 1
    (by norm_num [HC10, Heightmap.at', hC10data]) (by norm_num)

/-! ## C3: the weighted-kernel erosion write vs. the sediment update

Concrete droplet step for C3: 5×5 map, radius-2 kernel, the two cardinal
kernel cells `(2,1)` and `(2,3)` at height `0` clamp to zero while the
sediment update uses the pre-clamp amount. -/

/-- Parameters for the C3 step: `erosionRadius = 2`, `inertia = 0`,
`erodeSpeed = 1/4`. -/
noncomputable def pC3 : HydraulicErosionParams :=
  ⟨1, 0, 4, 1/100, 1/4, 3/10, 1/100, 4, 10, 2⟩

noncomputable def hC3data : List ℝ :=
  [10, 10, 10, 10, 10,
   10, 10, 0, 10, 10,
   10, 10, 10, 9, 10,
   10, 10, 0, 10, 10,
   10, 10, 10, 10, 10]

noncomputable def HC3 : Heightmap := ⟨5, 5, hC3data, by norm_num [hC3data]⟩

noncomputable def dC3 : Droplet := ⟨2, 2, 0, 0, 1, 1, 0⟩

/-- A kernel cell outside the circular radius is untouched. -/
lemma kcu_out (W : ℝ) (cx cy : ℕ) (v : ℝ)
    (hd : ¬Real.sqrt ((((cx : ℤ) - 2) * ((cx : ℤ) - 2) +
      ((cy : ℤ) - 2) * ((cy : ℤ) - 2) : ℤ) : ℝ) ≤ ((2 : ℤ) : ℝ)) :
    kernelCellUpdate 2 2 2 W (-1) cx cy v = v := by
  simp only [kernelCellUpdate]
  rw [if_neg hd]

/-- An in-kernel cell whose height can absorb its share is decremented by
its normalized weight. -/
lemma kcu_noclamp (W : ℝ) (cx cy : ℕ) (v dv : ℝ)
    (hd : Real.sqrt ((((cx : ℤ) - 2) * ((cx : ℤ) - 2) +
      ((cy : ℤ) - 2) * ((cy : ℤ) - 2) : ℤ) : ℝ) = dv)
    (hdle : dv ≤ 2) (hWpos : 0 < W) (hwnn : 0 ≤ 1 - dv / 2)
    (hcl : (1 - dv / 2) / W ≤ v) :
    kernelCellUpdate 2 2 2 W (-1) cx cy v = v - (1 - dv / 2) / W := by
  simp only [kernelCellUpdate, kernelWeight]
  rw [hd, if_pos (by push_cast; linarith)]
  rw [show ((2 : ℤ) : ℝ) = (2 : ℝ) by norm_num]
  rw [max_eq_right hwnn]
  have hwa : (1 - dv / 2) / W * (-1) = -((1 - dv / 2) / W) := by ring
  split_ifs with h
  · rw [max_eq_left (by rw [hwa]; linarith)]
    ring
  · have h0 : 0 ≤ (1 - dv / 2) / W := div_nonneg hwnn (le_of_lt hWpos)
    rw [hwa] at h
    have : (1 - dv / 2) / W = 0 := by linarith
    rw [this]
    ring_nf

/-- An in-kernel cell at height zero clamps its write to zero. -/
lemma kcu_clamp0 (W : ℝ) (cx cy : ℕ) (dv : ℝ)
    (hd : Real.sqrt ((((cx : ℤ) - 2) * ((cx : ℤ) - 2) +
      ((cy : ℤ) - 2) * ((cy : ℤ) - 2) : ℤ) : ℝ) = dv)
    (hdle : dv ≤ 2) (hWpos : 0 < W) (hwnn : 0 ≤ 1 - dv / 2) :
    kernelCellUpdate 2 2 2 W (-1) cx cy 0 = 0 := by
  simp only [kernelCellUpdate, kernelWeight]
  rw [hd, if_pos (by push_cast; linarith)]
  rw [show ((2 : ℤ) : ℝ) = (2 : ℝ) by norm_num]
  rw [max_eq_right hwnn]
  have hwa : (1 - dv / 2) / W * (-1) = -((1 - dv / 2) / W) := by ring
  have h0 : 0 ≤ (1 - dv / 2) / W := div_nonneg hwnn (le_of_lt hWpos)
  split_ifs with h
  · rw [neg_zero, max_eq_right (by rw [hwa]; linarith)]
    ring
  · rw [hwa] at h
    have : (1 - dv / 2) / W = 0 := by linarith
    rw [this]
    ring_nf

lemma kernelOffsets_two : kernelOffsets 2 = [-2, -1, 0, 1, 2] := by decide

lemma max_w2 : max (0 : ℝ) (1 - Real.sqrt 2 / 2) = 1 - Real.sqrt 2 / 2 :=
  max_eq_right (by nlinarith [sqrt_two_le_two, Real.sqrt_nonneg 2])

/-- The kernel weight sum of the C3 step: center `1`, four cardinals `1/2`,
four diagonals `1 - √2/2`, four boundary cells `0`. -/
lemma totalWeightC3 : totalWeight 2 HC3 2 2 = 7 - 2 * Real.sqrt 2 := by
  rw [totalWeight, kernelOffsets_two]
  simp only [List.map_cons, List.map_nil, List.sum_cons, List.sum_nil]
  norm_num [kernelWeight, HC3, Real.sqrt_zero, Real.sqrt_one, sqrt_four,
    not_sqrt_five_le_two, not_sqrt_eight_le_two, sqrt_two_le_two, max_w2]
  ring_nf

lemma rtrunc_two : rtrunc (2 : ℝ) = 2 := by
  rw [show (2 : ℝ) = ((2 : ℤ) : ℝ) by norm_num]
  exact rtrunc_intCast 2

/-- The C3 weighted erosion write: the two zero-height cardinal cells clamp
to zero, so only `(6 - 2√2)/(7 - 2√2)` of the unit amount is actually
removed from the heightmap. -/
lemma applyC3_sumData :
    (applyHeightChange pC3 HC3 dC3.posX dC3.posY (-1)).sumData =
      229 - (6 - 2 * Real.sqrt 2) / (7 - 2 * Real.sqrt 2) := by
  simp only [applyHeightChange, dC3, pC3, rtrunc_two]
  rw [if_neg (by norm_num)]
  rw [if_pos (show (1 : ℝ) / 10000 < totalWeight 2 HC3 2 2 by
    rw [totalWeightC3]; nlinarith [sqrt_two_le_two])]
  simp only [Heightmap.sumData]
  simp only [totalWeightC3]
  simp only [HC3, hC3data]
  simp only [writeIdx]
  norm_num
  rw [kcu_out _ 0 0 _ (by norm_num [not_sqrt_eight_le_two])]
  rw [kcu_out _ 1 0 _ (by norm_num [not_sqrt_five_le_two])]
  rw [kcu_noclamp _ 2 0 10 2 (by norm_num [sqrt_four]) (by norm_num) totalWeightC3_pos (by norm_num) (by rw [div_le_iff totalWeightC3_pos]; nlinarith [sqrt_two_le_two, Real.sqrt_nonneg 2])]
  rw [kcu_out _ 3 0 _ (by norm_num [not_sqrt_five_le_two])]
  rw [kcu_out _ 4 0 _ (by norm_num [not_sqrt_eight_le_two])]
  rw [kcu_out _ 0 1 _ (by norm_num [not_sqrt_five_le_two])]
  rw [kcu_noclamp _ 1 1 10 (Real.sqrt 2) (by norm_num) sqrt_two_le_two totalWeightC3_pos (by nlinarith [sqrt_two_le_two, Real.sqrt_nonneg 2]) (by rw [div_le_iff totalWeightC3_pos]; nlinarith [sqrt_two_le_two, Real.sqrt_nonneg 2])]
  rw [kcu_clamp0 _ 2 1 1 (by norm_num) (by norm_num) totalWeightC3_pos (by norm_num)]
  rw [kcu_noclamp _ 3 1 10 (Real.sqrt 2) (by norm_num) sqrt_two_le_two totalWeightC3_pos (by nlinarith [sqrt_two_le_two, Real.sqrt_nonneg 2]) (by rw [div_le_iff totalWeightC3_pos]; nlinarith [sqrt_two_le_two, Real.sqrt_nonneg 2])]
  rw [kcu_out _ 4 1 _ (by norm_num [not_sqrt_five_le_two])]
  rw [kcu_noclamp _ 0 2 10 2 (by norm_num [sqrt_four]) (by norm_num) totalWeightC3_pos (by norm_num) (by rw [div_le_iff totalWeightC3_pos]; nlinarith [sqrt_two_le_two, Real.sqrt_nonneg 2])]
  rw [kcu_noclamp _ 1 2 10 1 (by norm_num) (by norm_num) totalWeightC3_pos (by norm_num) (by rw [div_le_iff totalWeightC3_pos]; nlinarith [sqrt_two_le_two, Real.sqrt_nonneg 2])]
  rw [kcu_noclamp _ 2 2 10 0 (by norm_num) (by norm_num) totalWeightC3_pos (by norm_num) (by rw [div_le_iff totalWeightC3_pos]; nlinarith [sqrt_two_le_two, Real.sqrt_nonneg 2])]
  rw [kcu_noclamp _ 3 2 9 1 (by norm_num) (by norm_num) totalWeightC3_pos (by norm_num) (by rw [div_le_iff totalWeightC3_pos]; nlinarith [sqrt_two_le_two, Real.sqrt_nonneg 2])]
  rw [kcu_noclamp _ 4 2 10 2 (by norm_num [sqrt_four]) (by norm_num) totalWeightC3_pos (by norm_num) (by rw [div_le_iff totalWeightC3_pos]; nlinarith [sqrt_two_le_two, Real.sqrt_nonneg 2])]
  rw [kcu_out _ 0 3 _ (by norm_num [not_sqrt_five_le_two])]
  rw [kcu_noclamp _ 1 3 10 (Real.sqrt 2) (by norm_num) sqrt_two_le_two totalWeightC3_pos (by nlinarith [sqrt_two_le_two, Real.sqrt_nonneg 2]) (by rw [div_le_iff totalWeightC3_pos]; nlinarith [sqrt_two_le_two, Real.sqrt_nonneg 2])]
  rw [kcu_clamp0 _ 2 3 1 (by norm_num) (by norm_num) totalWeightC3_pos (by norm_num)]
  rw [kcu_noclamp _ 3 3 10 (Real.sqrt 2) (by norm_num) sqrt_two_le_two totalWeightC3_pos (by nlinarith [sqrt_two_le_two, Real.sqrt_nonneg 2]) (by rw [div_le_iff totalWeightC3_pos]; nlinarith [sqrt_two_le_two, Real.sqrt_nonneg 2])]
  rw [kcu_out _ 4 3 _ (by norm_num [not_sqrt_five_le_two])]
  rw [kcu_out _ 0 4 _ (by norm_num [not_sqrt_eight_le_two])]
  rw [kcu_out _ 1 4 _ (by norm_num [not_sqrt_five_le_two])]
  rw [kcu_noclamp _ 2 4 10 2 (by norm_num [sqrt_four]) (by norm_num) totalWeightC3_pos (by norm_num) (by rw [div_le_iff totalWeightC3_pos]; nlinarith [sqrt_two_le_two, Real.sqrt_nonneg 2])]
  rw [kcu_out _ 3 4 _ (by norm_num [not_sqrt_five_le_two])]
  rw [kcu_out _ 4 4 _ (by norm_num [not_sqrt_eight_le_two])]
  have hne : (7 - 2 * Real.sqrt 2) ≠ 0 := ne_of_gt totalWeightC3_pos
  field_simp
  ring

/-! Facts establishing that the C3 droplet step takes the radius ≥ 2
erosion branch. -/

lemma c3nb : ¬(rtrunc dC3.posX < 0 ∨ (HC3.width : ℤ) - 1 ≤ rtrunc dC3.posX ∨
    rtrunc dC3.posY < 0 ∨ (HC3.height : ℤ) - 1 ≤ rtrunc dC3.posY) := by
  simp only [dC3, rtrunc_two]
  norm_num [HC3]

lemma c3cur : HC3.getHeightInterpolated dC3.posX dC3.posY = 10 := by
  show HC3.getHeightInterpolated (2 : ℝ) (2 : ℝ) = 10
  rw [show (2 : ℝ) = ((2 : ℕ) : ℝ) by norm_num]
  rw [getHeightInterpolated_nat HC3 2 2 (by norm_num [HC3]) (by norm_num [HC3])]
  norm_num [HC3, Heightmap.at', hC3data]

lemma c3grad : HC3.getGradient dC3.posX dC3.posY = (-(1/2), 0) := by
  show HC3.getGradient (2 : ℝ) (2 : ℝ) = (-(1/2), 0)
  rw [show (2 : ℝ) = ((2 : ℕ) : ℝ) by norm_num]
  rw [getGradient_nat HC3 2 2 (by norm_num [HC3]) (by norm_num [HC3])]
  norm_num [HC3, Heightmap.at', hC3data]

lemma c3dx0 : dC3.dirX * pC3.inertia - -(1/2) * (1 - pC3.inertia) = 1/2 := by
  norm_num [dC3, pC3]

lemma c3dy0 : dC3.dirY * pC3.inertia - 0 * (1 - pC3.inertia) = 0 := by
  norm_num [dC3, pC3]

lemma c3L : Real.sqrt ((1/2 : ℝ) * (1/2) + 0 * 0) = 1/2 := by
  rw [show ((1/2 : ℝ) * (1/2) + 0 * 0) = (1/2) ^ 2 by ring]
  exact Real.sqrt_sq (by norm_num)

lemma c3mv : ¬(((1 : ℝ) = 0 ∧ (0 : ℝ) = 0) ∨ dC3.posX + 1 < 0 ∨
    ((HC3.width - 1 : ℕ) : ℝ) ≤ dC3.posX + 1 ∨ dC3.posY + 0 < 0 ∨
    ((HC3.height - 1 : ℕ) : ℝ) ≤ dC3.posY + 0) := by
  simp only [dC3]
  norm_num [HC3]

lemma c3nh : HC3.getHeightInterpolated (dC3.posX + 1) (dC3.posY + 0) = 9 := by
  show HC3.getHeightInterpolated (2 + 1 : ℝ) (2 + 0 : ℝ) = 9
  rw [show (2 + 1 : ℝ) = ((3 : ℕ) : ℝ) by norm_num,
    show (2 + 0 : ℝ) = ((2 : ℕ) : ℝ) by norm_num]
  rw [getHeightInterpolated_nat HC3 3 2 (by norm_num [HC3]) (by norm_num [HC3])]
  norm_num [HC3, Heightmap.at', hC3data]

lemma c3br : ¬(dC3.sediment > max (-(9 - 10 : ℝ) * dC3.speed * dC3.water *
    pC3.sedimentCapacityFactor) pC3.minSedimentCapacity ∨ (9 : ℝ) - 10 > 0) := by
  push_neg
  refine ⟨le_trans (by norm_num [dC3, pC3]) (le_max_right _ _), by norm_num⟩

lemma c3rad : 1 < pC3.erosionRadius := by norm_num [pC3]

/-- The C3 droplet step, fully evaluated: the erosion branch with the
radius-2 kernel removes the clamped kernel write from the heightmap and adds
the full pre-clamp amount `1` to the sediment. -/
lemma c3step : simStep pC3 HC3 dC3 = some
    (applyHeightChange pC3 HC3 dC3.posX dC3.posY (-1),
      ⟨dC3.posX + 1, dC3.posY + 0, 1, 0,
        min (Real.sqrt (max 0 (dC3.speed * dC3.speed - (9 - 10) * pC3.gravity)))
          pC3.maxDropletSpeed,
        dC3.water * (1 - pC3.evaporateSpeed), dC3.sediment + 1⟩) := by
  have h := simStep_erode_kernel pC3 HC3 dC3 (-(1/2)) 0 10 (1/2) 0 (1/2) 1 0 9
    c3nb c3cur c3grad c3dx0 c3dy0 c3L (by norm_num) (by norm_num) (by norm_num)
    c3mv c3nh c3br c3rad
  rw [h]
  have hE : min ((max (-(9 - 10 : ℝ) * dC3.speed * dC3.water *
      pC3.sedimentCapacityFactor) pC3.minSedimentCapacity - dC3.sediment) *
      pC3.erodeSpeed) (-(9 - 10 : ℝ)) = 1 := by
    simp only [dC3, pC3]
    rw [show (-(9 - 10 : ℝ) * 1 * 1 * 4) = 4 by norm_num]
    rw [max_eq_left (by norm_num)]
    norm_num
  rw [hE]

/-- C3 counterexample: in the evaluated step the droplet's sediment grows by
`1` (the pre-clamp erosion amount), while the total height actually removed
from the map is `(6 - 2√2)/(7 - 2√2) ≈ 0.76 ≠ 1` — the two zero-height
kernel cells clamp their share to zero but the sediment bookkeeping ignores
it. -/
theorem kernel_clamp_sediment_counterexample :
    ((simStep pC3 HC3 dC3).map fun r =>
      (HC3.sumData - r.1.sumData, r.2.sediment - dC3.sediment)) =
      some ((6 - 2 * Real.sqrt 2) / (7 - 2 * Real.sqrt 2), 1) ∧
    (6 - 2 * Real.sqrt 2) / (7 - 2 * Real.sqrt 2) ≠ 1 := by
  constructor
  · rw [c3step, Option.map_some']
    have h229 : HC3.sumData = 229 := by
      norm_num [Heightmap.sumData, HC3, hC3data]
    refine congrArg some (Prod.ext ?_ ?_)
    · rw [applyC3_sumData, h229]
      ring
    · simp only [dC3]
      norm_num
  · intro h
    rw [div_eq_one_iff_eq (ne_of_gt totalWeightC3_pos)] at h
    have := sqrt_two_le_two
    linarith

/-- C3 (amended): whenever a droplet step takes the erosion branch with
`erosionRadius ≥ 2`, the heightmap receives the per-cell-clamped kernel
write of `-E`, but the droplet's sediment load grows by exactly the
pre-clamp erosion amount `E = min((C - sediment)·erodeSpeed, -Δh)` — not by
the amount actually removed after clamping. -/
theorem erode_kernel_sediment_preclamp (p : HydraulicErosionParams) (H : Heightmap)
    (d : Droplet) (gx gy cur dx0 dy0 L dx dy nh : ℝ)
    (hnb : ¬(rtrunc d.posX < 0 ∨ (H.width : ℤ) - 1 ≤ rtrunc d.posX ∨ rtrunc d.posY < 0 ∨
      (H.height : ℤ) - 1 ≤ rtrunc d.posY))
    (hcur : H.getHeightInterpolated d.posX d.posY = cur)
    (hg : H.getGradient d.posX d.posY = (gx, gy))
    (hdx0 : d.dirX * p.inertia - gx * (1 - p.inertia) = dx0)
    (hdy0 : d.dirY * p.inertia - gy * (1 - p.inertia) = dy0)
    (hL : Real.sqrt (dx0 * dx0 + dy0 * dy0) = L)
    (hLne : L ≠ 0)
    (hdx : dx0 / L = dx)
    (hdy : dy0 / L = dy)
    (hmv : ¬((dx = 0 ∧ dy = 0) ∨ d.posX + dx < 0 ∨ ((H.width - 1 : ℕ) : ℝ) ≤ d.posX + dx ∨
      d.posY + dy < 0 ∨ ((H.height - 1 : ℕ) : ℝ) ≤ d.posY + dy))
    (hnh : H.getHeightInterpolated (d.posX + dx) (d.posY + dy) = nh)
    (hbr : ¬(d.sediment > max (-(nh - cur) * d.speed * d.water * p.sedimentCapacityFactor)
      p.minSedimentCapacity ∨ nh - cur > 0))
    (hrad : 1 < p.erosionRadius) :
    ((simStep p H d).map fun r => r.2.sediment) =
      some (d.sediment +
        min ((max (-(nh - cur) * d.speed * d.water * p.sedimentCapacityFactor)
          p.minSedimentCapacity - d.sediment) * p.erodeSpeed) (-(nh - cur))) ∧
    ((simStep p H d).map fun r => r.1) =
      some (applyHeightChange p H d.posX d.posY
        (-(min ((max (-(nh - cur) * d.speed * d.water * p.sedimentCapacityFactor)
          p.minSedimentCapacity - d.sediment) * p.erodeSpeed) (-(nh - cur))))) := by
  rw [simStep_erode_kernel p H d gx gy cur dx0 dy0 L dx dy nh hnb hcur hg hdx0 hdy0 hL
    hLne hdx hdy hmv hnh hbr hrad]
  exact ⟨rfl, rfl⟩

/-- Witness for C3 (amended): the concrete C3 step adds the pre-clamp
amount to the sediment. -/
theorem erode_kernel_sediment_preclamp_witness :
    ((simStep pC3 HC3 dC3).map fun r => r.2.sediment) =
      some (dC3.sediment +
        min ((max (-(9 - 10 : ℝ) * dC3.speed * dC3.water * pC3.sedimentCapacityFactor)
          pC3.minSedimentCapacity - dC3.sediment) * pC3.erodeSpeed) (-(9 - 10 : ℝ))) :=
  (erode_kernel_sediment_preclamp pC3 HC3 dC3 (-(1/2)) 0 10 (1/2) 0 (1/2) 1 0 9
    c3nb c3cur c3grad c3dx0 c3dy0 c3L (by norm_num) (by norm_num) (by norm_num)
    c3mv c3nh c3br c3rad).1

end TerrainSim
